import Mathlib

/-!
Verification of the oil-spill drift and weathering simulator
(src/public/js/simulation.js) against its specification.

The JavaScript engine is shallowly embedded: JS numbers are modeled as exact
field elements (ℚ for the grid interpolator, ℝ for the integrator, which uses
transcendental library functions), `Math.sqrt/sin/cos/exp/pow` become the
corresponding real functions, the JS `%` operator becomes a truncated
remainder, and the two sources of randomness (`Math.random` draws and the
Box-Muller rejection sampler `_gaussRandom`) are modeled as streams of values
consumed in program order.  Fields of a `FieldGrid` hold the stored
(post-`Float32Array`-conversion) values as a total function of the flat index;
the simulator only reads indices that are in range.
-/

set_option maxHeartbeats 1600000

namespace OilSpill

/-- A gridded scalar field (class `FieldGrid`, simulation.js lines 84-122):
ascending latitude and longitude axes, an optional time axis (`nTime = 0`
encodes a static field, mirroring `this.isTimeVarying = this.nTime > 0`),
and a map from variable name to the dense row-major data array. -/
structure FieldGrid (α : Type) where
  lat : ℤ → α
  lon : ℤ → α
  nLat : ℕ
  nLon : ℕ
  timeHours : ℤ → α
  nTime : ℕ
  vars : String → Option (ℤ → α)

namespace FieldGrid

variable {α : Type} [LinearOrderedField α] [FloorRing α]

def latMin (g : FieldGrid α) : α := g.lat 0

def latMax (g : FieldGrid α) : α := g.lat ((g.nLat : ℤ) - 1)

def lonMin (g : FieldGrid α) : α := g.lon 0

def lonMax (g : FieldGrid α) : α := g.lon ((g.nLon : ℤ) - 1)

/-- Grid resolution under the uniform-spacing assumption (lines 101-102). -/
def dLat (g : FieldGrid α) : α :=
  if 1 < g.nLat then (g.latMax - g.latMin) / ((g.nLat : α) - 1) else 1

def dLon (g : FieldGrid α) : α :=
  if 1 < g.nLon then (g.lonMax - g.lonMin) / ((g.nLon : α) - 1) else 1

def sliceSize (g : FieldGrid α) : ℕ := g.nLat * g.nLon

/-- Membership in the covered domain (`contains`, lines 127-130). -/
def contains (g : FieldGrid α) (lat lng : α) : Prop :=
  g.latMin ≤ lat ∧ lat ≤ g.latMax ∧ g.lonMin ≤ lng ∧ lng ≤ g.lonMax

instance (g : FieldGrid α) (lat lng : α) : Decidable (g.contains lat lng) := by
  unfold contains; infer_instance

/-- The bilinear combination of the four corner values around `(i0, j0)` at a
given flat-array offset, with weights `(1-di)(1-dj), (1-di)dj, di(1-dj), di dj`
(lines 159-164 and 193-207). -/
def corners (data : ℤ → α) (off nLon i0 j0 i1 j1 : ℤ) (di dj : α) : α :=
  (1 - di) * (1 - dj) * data (off + i0 * nLon + j0) +
  (1 - di) * dj * data (off + i0 * nLon + j1) +
  di * (1 - dj) * data (off + i1 * nLon + j0) +
  di * dj * data (off + i1 * nLon + j1)

/-- The linear scan of the time axis (lines 177-183): the first `k` with
`times[k] <= th <= times[k+1]` yields `k + (th - times[k])/(times[k+1] - times[k])`;
when the loop runs out, `ft` keeps its initial value 0.  The `ℕ` argument is
the remaining number of loop iterations (`nTime - 1` from `k = 0`). -/
def scanFt (times : ℤ → α) (th : α) : ℤ → ℕ → α
  | _, 0 => 0
  | k, n + 1 =>
    if times k ≤ th ∧ th ≤ times (k + 1) then
      (k : α) + (th - times k) / (times (k + 1) - times k)
    else scanFt times th (k + 1) n

/-- Bilinear spatial + linear temporal interpolation (`sample`, lines 140-211). -/
def sample (g : FieldGrid α) (varName : String) (lat lng timeHours : α) : α :=
  match g.vars varName with
  | none => 0
  | some data =>
    let fi : α := max 0 (min ((lat - g.latMin) / g.dLat) ((g.nLat : α) - 1))
    let fj : α := max 0 (min ((lng - g.lonMin) / g.dLon) ((g.nLon : α) - 1))
    let i0 : ℤ := min ⌊fi⌋ ((g.nLat : ℤ) - 2)
    let j0 : ℤ := min ⌊fj⌋ ((g.nLon : ℤ) - 2)
    let i1 : ℤ := i0 + 1
    let j1 : ℤ := j0 + 1
    let di : α := fi - (i0 : α)
    let dj : α := fj - (j0 : α)
    if g.nTime = 0 then
      corners data 0 (g.nLon : ℤ) i0 j0 i1 j1 di dj
    else
      let ft : α :=
        if timeHours ≤ g.timeHours 0 then 0
        else if g.timeHours ((g.nTime : ℤ) - 1) ≤ timeHours then (g.nTime : α) - 1
        else scanFt g.timeHours timeHours 0 (g.nTime - 1)
      let t0 : ℤ := min ⌊ft⌋ ((g.nTime : ℤ) - 2)
      let t1 : ℤ := t0 + 1
      let dtf : α := ft - (t0 : α)
      let ss : ℤ := (g.sliceSize : ℤ)
      corners data (t0 * ss) (g.nLon : ℤ) i0 j0 i1 j1 di dj * (1 - dtf) +
      corners data (t1 * ss) (g.nLon : ℤ) i0 j0 i1 j1 di dj * dtf

end FieldGrid

namespace FieldGrid

variable {α : Type} [LinearOrderedField α] [FloorRing α]

lemma dLat_uniform (g : FieldGrid α) (s : α) (hn : 2 ≤ g.nLat)
    (h : ∀ k : ℤ, 0 ≤ k → k < (g.nLat : ℤ) → g.lat k = g.lat 0 + k * s) :
    g.dLat = s := by
  have h1 : 1 < g.nLat := by omega
  have h2 : (2:ℤ) ≤ (g.nLat : ℤ) := by exact_mod_cast hn
  have hlast := h ((g.nLat : ℤ) - 1) (by omega) (by omega)
  have h1a : (1:α) < (g.nLat : α) := by exact_mod_cast h1
  have hden : ((g.nLat : α) - 1) ≠ 0 := ne_of_gt (sub_pos.mpr h1a)
  rw [dLat, if_pos h1, latMax, latMin, hlast]
  push_cast
  rw [add_sub_cancel_left, mul_comm, mul_div_assoc, div_self hden, mul_one]

lemma dLon_uniform (g : FieldGrid α) (s : α) (hn : 2 ≤ g.nLon)
    (h : ∀ k : ℤ, 0 ≤ k → k < (g.nLon : ℤ) → g.lon k = g.lon 0 + k * s) :
    g.dLon = s := by
  have h1 : 1 < g.nLon := by omega
  have h2 : (2:ℤ) ≤ (g.nLon : ℤ) := by exact_mod_cast hn
  have hlast := h ((g.nLon : ℤ) - 1) (by omega) (by omega)
  have h1a : (1:α) < (g.nLon : α) := by exact_mod_cast h1
  have hden : ((g.nLon : α) - 1) ≠ 0 := ne_of_gt (sub_pos.mpr h1a)
  rw [dLon, if_pos h1, lonMax, lonMin, hlast]
  push_cast
  rw [add_sub_cancel_left, mul_comm, mul_div_assoc, div_self hden, mul_one]

/-- At an exact node of a uniformly spaced axis, the clamped fractional index
reduces to the node index itself. -/
lemma clamp_node (latMinv d : α) (n : ℕ) (x : α) (i : ℕ)
    (hd : 0 < d) (hi : i < n) (hx : x - latMinv = (i : α) * d) :
    max 0 (min ((x - latMinv) / d) ((n : α) - 1)) = (i : α) := by
  rw [hx, mul_div_cancel_right₀ _ (ne_of_gt hd)]
  have hle : (i : α) ≤ (n : α) - 1 := by
    have : ((i : ℕ) : α) + 1 ≤ (n : α) := by exact_mod_cast hi
    linarith
  rw [min_eq_left hle, max_eq_right (by positivity)]

/-- When the fractional parts are 0 or 1, the bilinear combination collapses
to the single matching corner value. -/
lemma corners_cell (data : ℤ → α) (off m i0 j0 ei ej : ℤ)
    (hei : ei = 0 ∨ ei = 1) (hej : ej = 0 ∨ ej = 1) :
    corners data off m i0 j0 (i0 + 1) (j0 + 1) ((ei : ℤ) : α) ((ej : ℤ) : α)
      = data (off + (i0 + ei) * m + (j0 + ej)) := by
  rcases hei with h | h <;> rcases hej with h2 | h2 <;> subst h <;> subst h2 <;>
    simp [corners]

/-- The clamped floor indices and fractional weights at an in-range node pick
out exactly the stored value at that node. -/
lemma corners_at_node (data : ℤ → α) (off m nn : ℤ) (i j : ℤ)
    (hn : 2 ≤ nn) (hm : 2 ≤ m) (hi0 : 0 ≤ i) (hi : i < nn) (hj0 : 0 ≤ j) (hj : j < m) :
    corners data off m (min i (nn - 2)) (min j (m - 2)) (min i (nn - 2) + 1)
      (min j (m - 2) + 1)
      ((i : α) - ((min i (nn - 2) : ℤ) : α)) ((j : α) - ((min j (m - 2) : ℤ) : α))
      = data (off + i * m + j) := by
  have hei : i - min i (nn - 2) = 0 ∨ i - min i (nn - 2) = 1 := by omega
  have hej : j - min j (m - 2) = 0 ∨ j - min j (m - 2) = 1 := by omega
  have e1 : (i : α) - ((min i (nn - 2) : ℤ) : α) = ((i - min i (nn - 2) : ℤ) : α) := by
    push_cast; ring
  have e2 : (j : α) - ((min j (m - 2) : ℤ) : α) = ((j - min j (m - 2) : ℤ) : α) := by
    push_cast; ring
  rw [e1, e2, corners_cell data off m _ _ _ _ hei hej]
  have e3 : min i (nn - 2) + (i - min i (nn - 2)) = i := by omega
  have e4 : min j (m - 2) + (j - min j (m - 2)) = j := by omega
  rw [e3, e4]

/-- The time-location linear scan run from interval `a` finds the node `k`
when `times` is strictly ascending around it. -/
lemma scanFt_node (times : ℤ → α) (nT : ℤ) (k : ℤ) (hk1 : 1 ≤ k) (hk2 : k ≤ nT - 2)
    (hasc : ∀ a b : ℤ, 0 ≤ a → a < b → b < nT → times a < times b) :
    ∀ (fuel : ℕ) (a : ℤ), 0 ≤ a → a ≤ k - 1 → k - 1 < a + fuel →
      scanFt times (times k) a fuel = (k : α) := by
  intro fuel
  induction fuel with
  | zero => intro a _ h1 h2; omega
  | succ n ih =>
    intro a ha0 hak hfuel
    by_cases hhit : a = k - 1
    · subst hhit
      have hlt : times (k - 1) < times k := hasc (k - 1) k (by omega) (by omega) (by omega)
      have hidx : k - 1 + 1 = k := by ring
      simp only [scanFt, hidx]
      rw [if_pos (And.intro (le_of_lt hlt) (le_refl (times k)))]
      rw [div_self (sub_ne_zero.mpr (ne_of_gt hlt))]
      push_cast; ring
    · have hlt : times (a + 1) < times k := hasc (a + 1) k (by omega) (by omega) (by omega)
      simp only [scanFt]
      rw [if_neg (by rintro ⟨h1, h2⟩; exact absurd h2 (not_le.mpr hlt))]
      exact ih (a + 1) (by omega) (by omega) (by omega)

/-- The temporal blend at an exact time index `kz` collapses to the bilinear
value of slice `kz`. -/
lemma slice_blend (data : ℤ → α) (m ss : ℤ) (i0 j0 : ℤ) (di dj : α) (kz nT : ℤ)
    (h0 : 0 ≤ kz) (hk : kz ≤ nT - 1) (h2 : 2 ≤ nT) :
    corners data (min ⌊((kz : ℤ) : α)⌋ (nT - 2) * ss) m i0 j0 (i0 + 1) (j0 + 1) di dj *
      (1 - (((kz : ℤ) : α) - ((min ⌊((kz : ℤ) : α)⌋ (nT - 2) : ℤ) : α))) +
    corners data ((min ⌊((kz : ℤ) : α)⌋ (nT - 2) + 1) * ss) m i0 j0 (i0 + 1) (j0 + 1) di dj *
      (((kz : ℤ) : α) - ((min ⌊((kz : ℤ) : α)⌋ (nT - 2) : ℤ) : α))
      = corners data (kz * ss) m i0 j0 (i0 + 1) (j0 + 1) di dj := by
  rw [Int.floor_intCast]
  rcases le_or_lt kz (nT - 2) with h | h
  · rw [min_eq_left h]
    simp
  · have hkz : kz = nT - 1 := by omega
    rw [min_eq_right (by omega)]
    have hd : (((kz : ℤ) : α) - ((nT - 2 : ℤ) : α)) = 1 := by
      rw [hkz]; push_cast; ring
    rw [hd]
    have hoff : nT - 2 + 1 = kz := by omega
    rw [hoff]
    simp

end FieldGrid

/-- C2: sampling a `FieldGrid` with strictly ascending, uniformly spaced axes
at an exact grid node returns the stored value: `data[i*nLon + j]` for a
static grid, and the slice-`k` value `data[k*nLat*nLon + i*nLon + j]` when the
query time is exactly `times[k]` on a time-varying grid.  The `data` function
holds the stored (post-Float32-conversion) values, so exact equality in this
model is the claim's within-1-ulp agreement. -/
theorem c2_sample_grid_node (g : FieldGrid ℚ) (data : ℤ → ℚ) (varName : String)
    (sLat sLon : ℚ) (i j : ℕ)
    (hvar : g.vars varName = some data)
    (hsLat : 0 < sLat) (hsLon : 0 < sLon)
    (hnLat : 2 ≤ g.nLat) (hnLon : 2 ≤ g.nLon)
    (hlat : ∀ k : ℤ, 0 ≤ k → k < (g.nLat : ℤ) → g.lat k = g.lat 0 + k * sLat)
    (hlon : ∀ k : ℤ, 0 ≤ k → k < (g.nLon : ℤ) → g.lon k = g.lon 0 + k * sLon)
    (hi : i < g.nLat) (hj : j < g.nLon) :
    (g.nTime = 0 → ∀ th : ℚ,
      g.sample varName (g.lat (i : ℤ)) (g.lon (j : ℤ)) th
        = data ((i : ℤ) * (g.nLon : ℤ) + (j : ℤ))) ∧
    (2 ≤ g.nTime →
      (∀ a b : ℤ, 0 ≤ a → a < b → b < (g.nTime : ℤ) → g.timeHours a < g.timeHours b) →
      ∀ k : ℕ, k < g.nTime →
        g.sample varName (g.lat (i : ℤ)) (g.lon (j : ℤ)) (g.timeHours (k : ℤ))
          = data ((k : ℤ) * (g.sliceSize : ℤ) + (i : ℤ) * (g.nLon : ℤ) + (j : ℤ))) := by
  have hxi : g.lat (i : ℤ) - g.latMin = (i : ℚ) * sLat := by
    rw [FieldGrid.latMin, hlat (i : ℤ) (Int.natCast_nonneg i) (by exact_mod_cast hi)]
    push_cast; ring
  have hxj : g.lon (j : ℤ) - g.lonMin = (j : ℚ) * sLon := by
    rw [FieldGrid.lonMin, hlon (j : ℤ) (Int.natCast_nonneg j) (by exact_mod_cast hj)]
    push_cast; ring
  have hfi : max 0 (min ((g.lat (i : ℤ) - g.latMin) / g.dLat) ((g.nLat : ℚ) - 1))
      = (((i : ℕ) : ℤ) : ℚ) := by
    rw [FieldGrid.dLat_uniform g sLat hnLat hlat,
      FieldGrid.clamp_node g.latMin sLat g.nLat _ i hsLat hi hxi]
    push_cast; ring
  have hfj : max 0 (min ((g.lon (j : ℤ) - g.lonMin) / g.dLon) ((g.nLon : ℚ) - 1))
      = (((j : ℕ) : ℤ) : ℚ) := by
    rw [FieldGrid.dLon_uniform g sLon hnLon hlon,
      FieldGrid.clamp_node g.lonMin sLon g.nLon _ j hsLon hj hxj]
    push_cast; ring
  have hn2 : (2 : ℤ) ≤ (g.nLat : ℤ) := by exact_mod_cast hnLat
  have hm2 : (2 : ℤ) ≤ (g.nLon : ℤ) := by exact_mod_cast hnLon
  constructor
  · intro hst th
    simp only [FieldGrid.sample, hvar, hst, if_true]
    rw [hfi, hfj]
    simp only [Int.floor_intCast]
    rw [FieldGrid.corners_at_node data 0 (g.nLon : ℤ) (g.nLat : ℤ) (i : ℤ) (j : ℤ)
      hn2 hm2 (Int.natCast_nonneg i) (by exact_mod_cast hi)
      (Int.natCast_nonneg j) (by exact_mod_cast hj)]
    rw [zero_add]
  · intro ht2 hasc k hk
    have hT2 : (2 : ℤ) ≤ (g.nTime : ℤ) := by exact_mod_cast ht2
    have hkz : ((k : ℕ) : ℤ) < (g.nTime : ℤ) := by exact_mod_cast hk
    simp only [FieldGrid.sample, hvar]
    rw [if_neg (by omega : ¬ g.nTime = 0)]
    rw [hfi, hfj]
    have hft : (if g.timeHours (k : ℤ) ≤ g.timeHours 0 then (0 : ℚ)
        else if g.timeHours ((g.nTime : ℤ) - 1) ≤ g.timeHours (k : ℤ) then (g.nTime : ℚ) - 1
        else FieldGrid.scanFt g.timeHours (g.timeHours (k : ℤ)) 0 (g.nTime - 1))
        = (((k : ℕ) : ℤ) : ℚ) := by
      by_cases hk0 : k = 0
      · subst hk0
        simp
      · have hpos : (0 : ℤ) < (k : ℤ) := by exact_mod_cast Nat.pos_of_ne_zero hk0
        rw [if_neg (not_le.mpr (hasc 0 (k : ℤ) le_rfl hpos hkz))]
        by_cases hklast : (k : ℤ) = (g.nTime : ℤ) - 1
        · rw [hklast, if_pos le_rfl]
          push_cast; ring
        · rw [if_neg (not_le.mpr (hasc (k : ℤ) ((g.nTime : ℤ) - 1) (by omega)
            (by omega) (by omega)))]
          rw [FieldGrid.scanFt_node g.timeHours (g.nTime : ℤ) (k : ℤ) (by omega) (by omega)
            hasc (g.nTime - 1) 0 le_rfl (by omega) (by push_cast; omega)]
    rw [hft]
    rw [FieldGrid.slice_blend data (g.nLon : ℤ) (g.sliceSize : ℤ) _ _ _ _
      ((k : ℕ) : ℤ) (g.nTime : ℤ) (Int.natCast_nonneg k) (by omega) hT2]
    simp only [Int.floor_intCast]
    rw [FieldGrid.corners_at_node data (((k : ℕ) : ℤ) * (g.sliceSize : ℤ)) (g.nLon : ℤ)
      (g.nLat : ℤ) (i : ℤ) (j : ℤ) hn2 hm2 (Int.natCast_nonneg i) (by exact_mod_cast hi)
      (Int.natCast_nonneg j) (by exact_mod_cast hj)]

/-- A concrete 2-by-2 static grid (C2 witness input). -/
def gridS : FieldGrid ℚ :=
  { lat := fun k => (k : ℚ), lon := fun k => (k : ℚ), nLat := 2, nLon := 2,
    timeHours := fun _ => 0, nTime := 0,
    vars := fun v => if v = ("u10" : String) then some (fun idx => (idx : ℚ)) else none }

/-- A concrete 2-by-2 grid with a three-entry time axis (C2 witness input). -/
def gridT : FieldGrid ℚ :=
  { lat := fun k => (k : ℚ), lon := fun k => (k : ℚ), nLat := 2, nLon := 2,
    timeHours := fun k => (k : ℚ), nTime := 3,
    vars := fun v => if v = ("lsm" : String) then some (fun idx => (idx : ℚ)) else none }

/-- C2 witness: the node-sampling theorem applied at concrete grids; the static
2x2 grid stores the flat index as value, so node (1,0) yields 2, and the
time-varying grid at slice 2, node (1,1) yields 2*4 + 1*2 + 1 = 11. -/
theorem c2_sample_grid_node_witness :
    gridS.sample ("u10") (gridS.lat 1) (gridS.lon 0) 5 = 2 ∧
    gridT.sample ("lsm") (gridT.lat 1) (gridT.lon 1) (gridT.timeHours 2) = 11 := by
  constructor
  · have h := (c2_sample_grid_node gridS (fun idx => (idx : ℚ)) ("u10") 1 1 1 0
      (by norm_num [gridS]) one_pos one_pos (by norm_num [gridS]) (by norm_num [gridS])
      (by intro k h1 h2; norm_num [gridS])
      (by intro k h1 h2; norm_num [gridS])
      (by norm_num [gridS]) (by norm_num [gridS])).1 rfl 5
    simpa [gridS] using h
  · have h := (c2_sample_grid_node gridT (fun idx => (idx : ℚ)) ("lsm") 1 1 1 1
      (by norm_num [gridT]) one_pos one_pos (by norm_num [gridT]) (by norm_num [gridT])
      (by intro k h1 h2; norm_num [gridT])
      (by intro k h1 h2; norm_num [gridT])
      (by norm_num [gridT]) (by norm_num [gridT])).2 (by norm_num [gridT])
      (by intro a b h1 h2 h3; simp only [gridT]; exact_mod_cast h2) 2 (by norm_num [gridT])
    simpa [gridT, FieldGrid.sliceSize] using h

/-! ## The simulation engine (class `OilSpillSimulation`), embedded over ℝ -/

/-- One record of the oil property catalog (lines 18-59). -/
structure OilProps where
  density : ℝ
  viscosity : ℝ
  api : ℝ
  evapRate : ℝ
  pourPoint : ℝ
  volatileFrac : ℝ
  dispersibility : ℝ

inductive OilKind
  | crude
  | fuel
  | diesel
  | gasoline
deriving DecidableEq

/-- The oil property catalog `OIL_PROPERTIES` (lines 18-59). -/
def OIL_PROPERTIES : OilKind → OilProps
  | OilKind.crude => ⟨860, 12, 33, 0.042, -15, 0.25, 0.5⟩
  | OilKind.fuel => ⟨950, 180, 17, 0.015, 10, 0.08, 0.2⟩
  | OilKind.diesel => ⟨840, 4, 37, 0.065, -30, 0.45, 0.7⟩
  | OilKind.gasoline => ⟨740, 0.6, 60, 0.12, -60, 0.80, 0.9⟩

noncomputable def DEG_TO_RAD : ℝ := Real.pi / 180

noncomputable def RAD_TO_DEG : ℝ := 180 / Real.pi

def EARTH_RADIUS : ℝ := 6371000

def WIND_DRIFT_FACTOR : ℝ := 0.03

noncomputable def WIND_DEFLECTION : ℝ := 15 * DEG_TO_RAD

/-- Truncation toward zero, as the JS `%` operator uses. -/
noncomputable def rtrunc (x : ℝ) : ℤ := if 0 ≤ x then ⌊x⌋ else -⌊-x⌋

/-- The JS remainder `a % b` on (exactly represented) number operands. -/
noncomputable def jsMod (a b : ℝ) : ℝ := a - b * ((rtrunc (a / b) : ℤ) : ℝ)

/-- The two-argument arctangent `Math.atan2 y x`. -/
noncomputable def atan2 (y x : ℝ) : ℝ :=
  if 0 < x then Real.arctan (y / x)
  else if x < 0 then
    (if 0 ≤ y then Real.arctan (y / x) + Real.pi else Real.arctan (y / x) - Real.pi)
  else (if 0 < y then Real.pi / 2 else if y < 0 then -(Real.pi / 2) else 0)

/-- Per-parcel state (class `OilParticle`, lines 216-230). -/
structure Particle where
  lat : ℝ
  lng : ℝ
  mass : ℝ
  active : Bool
  beached : Bool
  age : ℝ
  thickness : ℝ
  evaporated : ℝ
  dispersed : ℝ
  emulsionWater : ℝ
  viscosity : ℝ

instance : Inhabited Particle := ⟨⟨0, 0, 0, false, false, 0, 0.01, 0, 0, 0, 0⟩⟩

/-- The `OilParticle` constructor (lines 217-229). -/
def OilParticle (lat lng mass : ℝ) : Particle :=
  ⟨lat, lng, mass, true, false, 0, 0.01, 0, 0, 0, 0⟩

inductive SpillMode
  | instant
  | continuous
deriving DecidableEq

/-- The engine configuration: all the fields of `OilSpillSimulation` that a run
reads (lines 237-267), with the four optional grids and the scalar fallbacks. -/
structure Config where
  timeStep : ℝ
  maxTime : ℝ
  spillLat : ℝ
  spillLng : ℝ
  oilVolume : ℝ
  oilType : OilKind
  particleCount : ℕ
  spillMode : SpillMode
  spillDuration : ℝ
  windSpeed : ℝ
  windDir : ℝ
  currentSpeed : ℝ
  currentDir : ℝ
  waterTemp : ℝ
  windGrid : Option (FieldGrid ℝ)
  currentGrid : Option (FieldGrid ℝ)
  tempGrid : Option (FieldGrid ℝ)
  landMask : Option (FieldGrid ℝ)
  useGridData : Bool
  gridTimeOffset : ℝ
  playbackSpeed : ℕ

/-- The `oilProps` getter (lines 292-294). -/
def Config.oilProps (cfg : Config) : OilProps := OIL_PROPERTIES cfg.oilType

/-- The `hasGridData` getter (lines 299-301): the land mask does not count. -/
def Config.hasGridData (cfg : Config) : Bool :=
  cfg.windGrid.isSome || cfg.currentGrid.isSome || cfg.tempGrid.isSome

/-- `useGrid` as computed at the top of `_step` (line 430). -/
def Config.useGrid (cfg : Config) : Bool := cfg.useGridData && cfg.hasGridData

/-- The statistics record (lines 270-279 and 663-674).  The initial object has
no `emulsionWater`/`viscosity` entries (they are added by the first full
statistics update), modeled with `Option`. -/
structure Stats where
  area : ℝ
  remaining : ℝ
  evaporated : ℝ
  dispersed : ℝ
  centerLat : ℝ
  centerLng : ℝ
  maxDrift : ℝ
  beached : ℕ
  emulsionWater : Option ℝ
  viscosity : Option ℝ

/-- The stats object built by `initialize`/`reset` (lines 311-314). -/
def initStats (cfg : Config) : Stats :=
  ⟨0, 100, 0, 0, cfg.spillLat, cfg.spillLng, 0, 0, none, none⟩

/-- The random sources of a run: `Math.random` draws (`unif`, consumed two per
released particle, in program order) and the values returned by the Box-Muller
rejection sampler `_gaussRandom` (`gauss`, consumed two per advected
particle). -/
structure Rng where
  unif : ℕ → ℝ
  gauss : ℕ → ℝ

structure TrajPoint where
  time : ℝ
  lat : ℝ
  lng : ℝ

/-- The mutable simulation state: particle array, clock, release counter,
trajectory, last statistics, and the positions of the two random streams. -/
structure SimState where
  particles : List Particle
  time : ℝ
  particlesReleased : ℕ
  trajectory : List TrajPoint
  stats : Stats
  uIdx : ℕ
  gIdx : ℕ

/-- `_calcEvaporation` (lines 600-605): simplified Stiver-Mackay fraction. -/
noncomputable def calcEvaporation (props : OilProps) (hours temp windSpeed : ℝ) : ℝ :=
  if hours ≤ 0 then 0
  else
    let K := props.evapRate * (1 + 0.045 * (temp - 15))
    min (K * Real.sqrt hours * (1 + 0.01 * windSpeed)) props.volatileFrac

/-- `_calcDispersion` (lines 610-616): simplified Delvigne-Sweeney fraction. -/
noncomputable def calcDispersion (props : OilProps) (windSpeed hours : ℝ) : ℝ :=
  if hours ≤ 0 ∨ windSpeed < 5 then 0
  else
    let Dba := 0.0034 * props.dispersibility
    let waveEnergy := windSpeed ^ (2 : ℕ) * 0.001
    min (Dba * waveEnergy * hours) 0.3

/-- `_calcEmulsion` (lines 621-627): simplified Mackay water uptake. -/
noncomputable def calcEmulsion (hours windSpeed : ℝ) : ℝ :=
  if hours ≤ 0 ∨ windSpeed < 3 then 0
  else
    let Ymax : ℝ := 0.7
    let Ka := 2e-6 * (windSpeed + 1) ^ (2 : ℕ)
    min (Ymax * (1 - Real.exp (-(Ka * hours * 3600)))) Ymax

/-- The scalar-mode global drift precompute of `_step` (lines 460-479). -/
structure ScalarEnv where
  totalU : ℝ
  totalV : ℝ
  diffCoeff : ℝ
  ws : ℝ

noncomputable def scalarEnv (cfg : Config) (time : ℝ) : ScalarEnv :=
  let timeVariation := Real.sin (time * 0.0002) * 0.1
  let ws := cfg.windSpeed * (1 + timeVariation)
  let wd := cfg.windDir + 5 * Real.sin (time * 0.0003)
  let cs := cfg.currentSpeed * (1 + 0.05 * Real.sin (time * 0.0005))
  let cd := cfg.currentDir + 3 * Real.cos (time * 0.0004)
  let windGoRad := jsMod (wd + 180) 360 * DEG_TO_RAD
  let currentGoRad := cd * DEG_TO_RAD
  let windDriftU := ws * WIND_DRIFT_FACTOR * Real.sin (windGoRad + WIND_DEFLECTION)
  let windDriftV := ws * WIND_DRIFT_FACTOR * Real.cos (windGoRad + WIND_DEFLECTION)
  let currentU := cs * Real.sin currentGoRad
  let currentV := cs * Real.cos currentGoRad
  ⟨windDriftU + currentU, windDriftV + currentV, 1.0 + 0.5 * ws, ws⟩

/-- The drift-and-diffusion displacement of one particle in degrees (lines
516-566): grid-interpolated wind drift and current when `useGrid`, otherwise
the precomputed scalar vector, plus the Box-Muller random walk; returns
`(dLat, dLng)`. -/
noncomputable def displacement (cfg : Config) (useGrid : Bool) (env : ScalarEnv)
    (gridT dt g1 g2 : ℝ) (p : Particle) : ℝ × ℝ :=
  let drift : ℝ × ℝ × ℝ :=
    if useGrid then
      let uv10 : ℝ × ℝ :=
        match cfg.windGrid with
        | some wg =>
          if wg.contains p.lat p.lng then
            (wg.sample ("u10") p.lat p.lng gridT, wg.sample ("v10") p.lat p.lng gridT)
          else (0, 0)
        | none => (0, 0)
      let uvo : ℝ × ℝ :=
        match cfg.currentGrid with
        | some cg =>
          if cg.contains p.lat p.lng then
            (cg.sample ("uo") p.lat p.lng gridT, cg.sample ("vo") p.lat p.lng gridT)
          else (0, 0)
        | none => (0, 0)
      let windSpeedP := Real.sqrt (uv10.1 * uv10.1 + uv10.2 * uv10.2)
      let windAngle := atan2 uv10.1 uv10.2
      let driftU := windSpeedP * WIND_DRIFT_FACTOR * Real.sin (windAngle + WIND_DEFLECTION)
      let driftV := windSpeedP * WIND_DRIFT_FACTOR * Real.cos (windAngle + WIND_DEFLECTION)
      (driftU + uvo.1, driftV + uvo.2, 1.0 + 0.5 * windSpeedP)
    else (env.totalU, env.totalV, env.diffCoeff)
  let randomU := g1 * Real.sqrt (2 * drift.2.2 * dt)
  let randomV := g2 * Real.sqrt (2 * drift.2.2 * dt)
  let du := drift.1 * dt + randomU
  let dv := drift.2.1 * dt + randomV
  (dv / EARTH_RADIUS * RAD_TO_DEG,
   du / (EARTH_RADIUS * Real.cos (p.lat * DEG_TO_RAD)) * RAD_TO_DEG)

/-- The update of one active particle inside the per-particle loop of `_step`
(lines 493-581): age, weathering copy, low-mass deactivation, mass and Fay
thickness, displacement, grounding.  Returns the updated particle and the
number of `gauss` draws consumed (0 on the early deactivation path, else 2). -/
noncomputable def particleUpd (cfg : Config) (useGrid : Bool) (env : ScalarEnv)
    (evapFraction dispersFraction emulsionWater gridT dt g1 g2 : ℝ)
    (p : Particle) : Particle × ℕ :=
  let props := cfg.oilProps
  let age := p.age + dt
  let evaporated := min evapFraction props.volatileFrac
  let dispersed := min dispersFraction 0.3
  let viscMult := Real.exp (5 * evaporated) * (1 / (1 - emulsionWater) ^ (2.5 : ℝ))
  let viscosity := props.viscosity * viscMult
  let remainFrac := 1 - evaporated - dispersed
  if remainFrac < 0.05 then
    ({ p with age := age, evaporated := evaporated, dispersed := dispersed,
              emulsionWater := emulsionWater, viscosity := viscosity,
              active := false }, 0)
  else
    let mass := cfg.oilVolume * 1000 / (cfg.particleCount : ℝ) * remainFrac
    let tHours := age / 3600
    let thickness := if 0 < tHours then 0.01 * tHours ^ (-0.33 : ℝ) else p.thickness
    let d := displacement cfg useGrid env gridT dt g1 g2 p
    let newLat := p.lat + d.1
    let newLng := p.lng + d.2
    let base : Particle :=
      { p with age := age, evaporated := evaporated, dispersed := dispersed,
               emulsionWater := emulsionWater, viscosity := viscosity,
               mass := mass, thickness := thickness, lat := newLat, lng := newLng }
    match cfg.landMask with
    | some lm =>
      if lm.contains newLat newLng ∧ 0.5 < lm.sample ("lsm") newLat newLng 0 then
        ({ base with lat := newLat - d.1, lng := newLng - d.2,
                     active := false, beached := true }, 2)
      else (base, 2)
    | none => (base, 2)

/-- The per-particle loop of `_step` (lines 489-582): particles are visited in
index order, inactive ones are skipped, each processed active particle
consumes its `gauss` draws at the current stream position. -/
noncomputable def particlesLoop (cfg : Config) (rng : Rng) (useGrid : Bool) (env : ScalarEnv)
    (evapF dispF emulY gridT dt : ℝ) : List Particle → ℕ → List Particle × ℕ
  | [], gi => ([], gi)
  | p :: rest, gi =>
    if p.active then
      let r := particleUpd cfg useGrid env evapF dispF emulY gridT dt
        (rng.gauss gi) (rng.gauss (gi + 1)) p
      let tail := particlesLoop cfg rng useGrid env evapF dispF emulY gridT dt rest (gi + r.2)
      (r.1 :: tail.1, tail.2)
    else
      let tail := particlesLoop cfg rng useGrid env evapF dispF emulY gridT dt rest gi
      (p :: tail.1, tail.2)

/-- Placement of one newly released particle in continuous mode (lines
444-450): a fresh area-uniform point of a radius-0.001-degree disk. -/
noncomputable def releaseParticle (cfg : Config) (rng : Rng) (u : ℕ) (p : Particle) : Particle :=
  let angle := rng.unif u * 2 * Real.pi
  let r := Real.sqrt (rng.unif (u + 1)) * 0.001
  { p with lat := cfg.spillLat + r * Real.cos angle,
           lng := cfg.spillLng + r * Real.sin angle / Real.cos (cfg.spillLat * DEG_TO_RAD),
           active := true, age := 0 }

/-- The release for-loop (lines 443-452): runs at most `toRelease` times and
stops once every particle is released; each iteration activates the particle
at index `released` and consumes two uniform draws. -/
noncomputable def releaseLoop (cfg : Config) (rng : Rng) :
    ℕ → List Particle → ℕ → ℕ → List Particle × ℕ × ℕ
  | 0, ps, released, u => (ps, released, u)
  | n + 1, ps, released, u =>
    if released < cfg.particleCount then
      releaseLoop cfg rng n
        (ps.set released (releaseParticle cfg rng u (ps.getD released default)))
        (released + 1) (u + 2)
    else (ps, released, u)

/-- The continuous-release schedule at the top of `_step` (lines 433-454). -/
noncomputable def releasePhase (cfg : Config) (rng : Rng) (s : SimState) : SimState :=
  match cfg.spillMode with
  | SpillMode.continuous =>
    if s.particlesReleased < cfg.particleCount then
      let spillDurSec := cfg.spillDuration * 3600
      if s.time < spillDurSec then
        let targetReleased : ℤ :=
          min ⌊(s.time + cfg.timeStep) / spillDurSec * (cfg.particleCount : ℝ)⌋
            (cfg.particleCount : ℤ)
        let toRelease := targetReleased - (s.particlesReleased : ℤ)
        let r := releaseLoop cfg rng toRelease.toNat s.particles s.particlesReleased s.uIdx
        { s with particles := r.1, particlesReleased := r.2.1, uIdx := r.2.2 }
      else s
    else s
  | SpillMode.instant => s

/-- The environment record handed to the particle loop (lines 459-480): the
scalar precompute when not in grid mode, else the unused defaults of lines
460 (`globalTotalU = 0, globalTotalV = 0, globalDiffCoeff = 1.0,
globalWs = windSpeed`). -/
noncomputable def stepEnv (cfg : Config) (t : ℝ) : ScalarEnv :=
  if cfg.useGrid then ⟨0, 0, 1.0, cfg.windSpeed⟩ else scalarEnv cfg t

/-- The representative wind used for the global weathering (line 483): the
fixed 5.0 in grid mode, else the time-perturbed scalar wind. -/
noncomputable def stepRepWs (cfg : Config) (t : ℝ) : ℝ :=
  if cfg.useGrid then 5.0 else (stepEnv cfg t).ws

/-- One full integration step, `_step` (lines 427-595): release schedule,
global weathering with the representative wind (5.0 in grid mode, else the
time-perturbed scalar wind), the per-particle loop, the clock advance, and the
hourly trajectory sampling. -/
noncomputable def stepFull (cfg : Config) (rng : Rng) (s0 : SimState) : SimState :=
  let dt := cfg.timeStep
  let useGrid := cfg.useGrid
  let gridT := s0.time / 3600 + cfg.gridTimeOffset
  let s := releasePhase cfg rng s0
  let hoursElapsed := s.time / 3600
  let env := stepEnv cfg s.time
  let repWs := stepRepWs cfg s.time
  let evapFraction := calcEvaporation cfg.oilProps hoursElapsed cfg.waterTemp repWs
  let dispersFraction := calcDispersion cfg.oilProps repWs hoursElapsed
  let emulsionWater := calcEmulsion hoursElapsed repWs
  let r := particlesLoop cfg rng useGrid env evapFraction dispersFraction emulsionWater
    gridT dt s.particles s.gIdx
  let newTime := s.time + dt
  let traj :=
    if jsMod newTime 3600 < dt then
      let active := r.1.filter fun p => p.active
      if 0 < active.length then
        s.trajectory ++ [⟨newTime, (active.map fun p => p.lat).sum / (active.length : ℝ),
                          (active.map fun p => p.lng).sum / (active.length : ℝ)⟩]
      else s.trajectory
    else s.trajectory
  { s with particles := r.1, gIdx := r.2, time := newTime, trajectory := traj }

/-- `_haversineDistance` (lines 680-687). -/
noncomputable def haversineDistance (lat1 lng1 lat2 lng2 : ℝ) : ℝ :=
  let dLat := (lat2 - lat1) * DEG_TO_RAD
  let dLng := (lng2 - lng1) * DEG_TO_RAD
  let a := Real.sin (dLat / 2) ^ (2 : ℕ) +
    Real.cos (lat1 * DEG_TO_RAD) * Real.cos (lat2 * DEG_TO_RAD) * Real.sin (dLng / 2) ^ (2 : ℕ)
  2 * EARTH_RADIUS * atan2 (Real.sqrt a) (Real.sqrt (1 - a))

/-- `_updateStats` (lines 632-675). -/
noncomputable def updateStats (cfg : Config) (ps : List Particle) (st : Stats) : Stats :=
  let active := ps.filter fun p => p.active
  let beachedCount := (ps.filter fun p => p.beached).length
  if active.length = 0 ∧ beachedCount = 0 then st
  else
    let st1 := { st with beached := beachedCount }
    if active.length = 0 then st1
    else
      let n : ℝ := (active.length : ℝ)
      let cLat := (active.map fun p => p.lat).sum / n
      let cLng := (active.map fun p => p.lng).sum / n
      let latStd := Real.sqrt ((active.map fun p => (p.lat - cLat) ^ (2 : ℕ)).sum / n)
      let lngStd := Real.sqrt ((active.map fun p => (p.lng - cLng) ^ (2 : ℕ)).sum / n)
      let latKm := latStd * 111.32
      let lngKm := lngStd * 111.32 * Real.cos (cLat * DEG_TO_RAD)
      let area := Real.pi * latKm * lngKm * 4
      let maxDrift := active.foldl
        (fun m p => max m (haversineDistance cfg.spillLat cfg.spillLng p.lat p.lng)) 0
      let rep := active.headI
      { area := area,
        remaining := (1 - rep.evaporated - rep.dispersed) * 100,
        evaporated := rep.evaporated * 100,
        dispersed := rep.dispersed * 100,
        centerLat := cLat, centerLng := cLng,
        maxDrift := maxDrift / 1000,
        beached := beachedCount,
        emulsionWater := some (rep.emulsionWater * 100),
        viscosity := some rep.viscosity }

/-- `initialize` (lines 306-342): `initSim` builds the particle array per
release mode and resets clock, trajectory, release counter and stats. -/
noncomputable def initSim (cfg : Config) (rng : Rng) : SimState :=
  let massPerParticle := cfg.oilVolume * 1000 / (cfg.particleCount : ℝ)
  let props := cfg.oilProps
  match cfg.spillMode with
  | SpillMode.continuous =>
    let ps := (List.range cfg.particleCount).map fun _ =>
      { OilParticle cfg.spillLat cfg.spillLng massPerParticle with
          viscosity := props.viscosity, active := false }
    ⟨ps, 0, 0, [], initStats cfg, 0, 0⟩
  | SpillMode.instant =>
    let initRadius : ℝ := 0.002
    let ps := (List.range cfg.particleCount).map fun i =>
      let angle := rng.unif (2 * i) * 2 * Real.pi
      let r := Real.sqrt (rng.unif (2 * i + 1)) * initRadius
      let lat := cfg.spillLat + r * Real.cos angle
      let lng := cfg.spillLng + r * Real.sin angle / Real.cos (cfg.spillLat * DEG_TO_RAD)
      { OilParticle lat lng massPerParticle with viscosity := props.viscosity }
    ⟨ps, 0, cfg.particleCount, [], initStats cfg, 2 * cfg.particleCount, 0⟩

/-- The bounded stepping of the tick loop (lines 406-413): each iteration
advances one `_step` while the horizon has not been reached. -/
noncomputable def stepN (cfg : Config) (rng : Rng) : ℕ → SimState → SimState
  | 0, s => s
  | n + 1, s =>
    if s.time < cfg.maxTime then stepN cfg rng n (stepFull cfg rng s) else s

/-- One `_tick` (lines 390-420): `playbackSpeed` bounded steps followed by the
statistics update. -/
noncomputable def runTick (cfg : Config) (rng : Rng) (s : SimState) : SimState :=
  let s2 := stepN cfg rng cfg.playbackSpeed s
  { s2 with stats := updateStats cfg s2.particles s2.stats }

noncomputable def runTicks (cfg : Config) (rng : Rng) : ℕ → SimState → SimState
  | 0, s => s
  | n + 1, s => runTicks cfg rng n (runTick cfg rng s)

/-! ## C7 -/

/-- C7: the evaporation fraction is `min(K*sqrt(h)*(1 + 0.01W), volatile_frac)`
with `K = evap_rate*(1 + 0.045(T - 15))`, is 0 when `h ≤ 0`, and for crude oil
at T = 15 C, W = 5 m/s, h = 48 it equals the volatile-fraction cap 0.25. -/
theorem c7_evaporation_formula :
    (∀ (P : OilProps) (h T W : ℝ),
      (h ≤ 0 → calcEvaporation P h T W = 0) ∧
      (0 < h → calcEvaporation P h T W
        = min (P.evapRate * (1 + 0.045 * (T - 15)) * Real.sqrt h * (1 + 0.01 * W))
            P.volatileFrac)) ∧
    calcEvaporation (OIL_PROPERTIES OilKind.crude) 48 15 5 = 0.25 := by
  constructor
  · intro P h T W
    constructor
    · intro hh
      simp [calcEvaporation, if_pos hh]
    · intro hh
      rw [calcEvaporation, if_neg (not_le.mpr hh)]
  · rw [calcEvaporation, if_neg (by norm_num)]
    have h48 : (5.67 : ℝ) ≤ Real.sqrt 48 := by
      have h0 : (5.67 : ℝ) = Real.sqrt (5.67 ^ 2) := (Real.sqrt_sq (by norm_num)).symm
      rw [h0]
      exact Real.sqrt_le_sqrt (by norm_num)
    have hmin : (OIL_PROPERTIES OilKind.crude).volatileFrac
        ≤ (OIL_PROPERTIES OilKind.crude).evapRate * (1 + 0.045 * ((15 : ℝ) - 15)) *
          Real.sqrt 48 * (1 + 0.01 * 5) := by
      simp only [OIL_PROPERTIES]
      nlinarith [h48]
    rw [min_eq_right hmin]
    simp [OIL_PROPERTIES]

/-! ## C1 -/

/-- The result of `particleUpd` on the main path (no early deactivation, no
land mask), written out field by field. -/
lemma particleUpd_eval (cfg : Config) (useGrid : Bool) (env : ScalarEnv)
    (evapF dispF emulY gridT dt g1 g2 : ℝ) (p : Particle)
    (hrem : ¬ (1 - min evapF cfg.oilProps.volatileFrac - min dispF 0.3 < 0.05))
    (hlm : cfg.landMask = none) :
    particleUpd cfg useGrid env evapF dispF emulY gridT dt g1 g2 p =
      ({ p with
          age := p.age + dt,
          evaporated := min evapF cfg.oilProps.volatileFrac,
          dispersed := min dispF 0.3,
          emulsionWater := emulY,
          viscosity := cfg.oilProps.viscosity *
            (Real.exp (5 * min evapF cfg.oilProps.volatileFrac) *
              (1 / (1 - emulY) ^ (2.5 : ℝ))),
          mass := cfg.oilVolume * 1000 / (cfg.particleCount : ℝ) *
            (1 - min evapF cfg.oilProps.volatileFrac - min dispF 0.3),
          thickness := if 0 < (p.age + dt) / 3600
            then 0.01 * ((p.age + dt) / 3600) ^ (-0.33 : ℝ) else p.thickness,
          lat := p.lat + (displacement cfg useGrid env gridT dt g1 g2 p).1,
          lng := p.lng + (displacement cfg useGrid env gridT dt g1 g2 p).2 }, 2) := by
  simp only [particleUpd, if_neg hrem, hlm]

/-- A zeroed scalar environment, used in concrete evaluations. -/
def envZ : ScalarEnv := ⟨0, 0, 0, 0⟩

/-- The default configuration of the `OilSpillSimulation` constructor
(lines 237-267), with no grids loaded. -/
def cfg0 : Config :=
  { timeStep := 600, maxTime := 172800, spillLat := 38.5, spillLng := 119.0,
    oilVolume := 500, oilType := OilKind.crude, particleCount := 1000,
    spillMode := SpillMode.instant, spillDuration := 12,
    windSpeed := 5.0, windDir := 180, currentSpeed := 0.3, currentDir := 90,
    waterTemp := 18, windGrid := none, currentGrid := none, tempGrid := none,
    landMask := none, useGridData := true, gridTimeOffset := 0, playbackSpeed := 2 }

/-- A particle that has already aged one hour. -/
def pC1 : Particle := { OilParticle 38.5 119.0 500 with age := 3600 }

/-- C1 counterexample: at post-increment age 7200 s (tHours = 2) the step
computes thickness 0.01 * 2^(-0.33) (`Math.pow(tHours, -0.33)`, line 513),
which is not the claimed Fay value 0.01 * 2^(-1/3). -/
theorem c1_thickness_counterexample :
    (particleUpd cfg0 false envZ 0 0 0 0 3600 0 0 pC1).1.thickness
        = 0.01 * (2 : ℝ) ^ (-0.33 : ℝ) ∧
    0.01 * (2 : ℝ) ^ (-0.33 : ℝ) ≠ 0.01 * (2 : ℝ) ^ (-(1 / 3) : ℝ) := by
  have hlt : (2 : ℝ) ^ (-(1 / 3) : ℝ) < (2 : ℝ) ^ (-0.33 : ℝ) :=
    (Real.rpow_lt_rpow_left_iff (by norm_num : (1 : ℝ) < 2)).mpr (by norm_num)
  constructor
  · rw [particleUpd_eval cfg0 false envZ 0 0 0 0 3600 0 0 pC1
      (by norm_num [Config.oilProps, OIL_PROPERTIES, cfg0]) rfl]
    norm_num [pC1, OilParticle]
  · intro h
    exact absurd (mul_left_cancel₀ (by norm_num : (0.01 : ℝ) ≠ 0) h) (ne_of_gt hlt)

/-- C1 (amended): for an active particle that survives the low-mass check and
has positive post-increment age, the step sets its thickness to
`0.01 * (age/3600) ^ (-0.33)` — the source exponent is -0.33, not -1/3. -/
theorem c1_thickness_amended (cfg : Config) (useGrid : Bool) (env : ScalarEnv)
    (evapF dispF emulY gridT dt g1 g2 : ℝ) (p : Particle)
    (hrem : ¬ (1 - min evapF cfg.oilProps.volatileFrac - min dispF 0.3 < 0.05))
    (hage : 0 < (p.age + dt) / 3600) :
    (particleUpd cfg useGrid env evapF dispF emulY gridT dt g1 g2 p).1.thickness
      = 0.01 * ((p.age + dt) / 3600) ^ (-0.33 : ℝ) := by
  simp only [particleUpd, if_neg hrem]
  cases hlm : cfg.landMask with
  | none =>
    simp [hage]
  | some lm =>
    by_cases hg : lm.contains (p.lat + (displacement cfg useGrid env gridT dt g1 g2 p).1)
        (p.lng + (displacement cfg useGrid env gridT dt g1 g2 p).2) ∧
        0.5 < lm.sample ("lsm") (p.lat + (displacement cfg useGrid env gridT dt g1 g2 p).1)
          (p.lng + (displacement cfg useGrid env gridT dt g1 g2 p).2) 0
    · simp [if_pos hg, hage]
    · simp [if_neg hg, hage]

/-! ## C4 -/

/-- Shared grounding computation: under the grounding conditions the particle
update reverts the position and sets the flags. -/
lemma particleUpd_grounded (cfg : Config) (useGrid : Bool) (env : ScalarEnv)
    (evapF dispF emulY gridT dt g1 g2 : ℝ) (p : Particle) (lm : FieldGrid ℝ)
    (hlm : cfg.landMask = some lm)
    (hrem : ¬ (1 - min evapF cfg.oilProps.volatileFrac - min dispF 0.3 < 0.05))
    (hc : lm.contains (p.lat + (displacement cfg useGrid env gridT dt g1 g2 p).1)
      (p.lng + (displacement cfg useGrid env gridT dt g1 g2 p).2))
    (hs : 0.5 < lm.sample ("lsm")
      (p.lat + (displacement cfg useGrid env gridT dt g1 g2 p).1)
      (p.lng + (displacement cfg useGrid env gridT dt g1 g2 p).2) 0) :
    (particleUpd cfg useGrid env evapF dispF emulY gridT dt g1 g2 p).1.lat = p.lat ∧
    (particleUpd cfg useGrid env evapF dispF emulY gridT dt g1 g2 p).1.lng = p.lng ∧
    (particleUpd cfg useGrid env evapF dispF emulY gridT dt g1 g2 p).1.active = false ∧
    (particleUpd cfg useGrid env evapF dispF emulY gridT dt g1 g2 p).1.beached = true := by
  simp only [particleUpd, if_neg hrem, hlm]
  rw [if_pos (And.intro hc hs)]
  refine ⟨by simp, by simp, by simp, by simp⟩

/-- C4: a particle that becomes beached during a step (land mask present, new
position inside the mask, sampled lsm above 0.5) ends the step inactive,
beached, and with its position reverted exactly to the pre-step position. -/
theorem c4_grounding_reverts (cfg : Config) (useGrid : Bool) (env : ScalarEnv)
    (evapF dispF emulY gridT dt g1 g2 : ℝ) (p : Particle) (lm : FieldGrid ℝ)
    (hlm : cfg.landMask = some lm)
    (hrem : ¬ (1 - min evapF cfg.oilProps.volatileFrac - min dispF 0.3 < 0.05))
    (hc : lm.contains (p.lat + (displacement cfg useGrid env gridT dt g1 g2 p).1)
      (p.lng + (displacement cfg useGrid env gridT dt g1 g2 p).2))
    (hs : 0.5 < lm.sample ("lsm")
      (p.lat + (displacement cfg useGrid env gridT dt g1 g2 p).1)
      (p.lng + (displacement cfg useGrid env gridT dt g1 g2 p).2) 0) :
    (particleUpd cfg useGrid env evapF dispF emulY gridT dt g1 g2 p).1.lat = p.lat ∧
    (particleUpd cfg useGrid env evapF dispF emulY gridT dt g1 g2 p).1.lng = p.lng ∧
    (particleUpd cfg useGrid env evapF dispF emulY gridT dt g1 g2 p).1.active = false ∧
    (particleUpd cfg useGrid env evapF dispF emulY gridT dt g1 g2 p).1.beached = true :=
  particleUpd_grounded cfg useGrid env evapF dispF emulY gridT dt g1 g2 p lm hlm hrem hc hs

/-- With the scalar drift vector zero and zero gaussian draws, the particle
displacement is exactly zero. -/
lemma displacement_scalar_zero (cfg : Config) (env : ScalarEnv) (gridT dt : ℝ) (p : Particle)
    (h1 : env.totalU = 0) (h2 : env.totalV = 0) :
    displacement cfg false env gridT dt 0 0 p = (0, 0) := by
  simp [displacement, h1, h2]

/-- A 2x2 static all-land mask (constant lsm = 1), axes 0..1 degrees. -/
def lmW : FieldGrid ℝ :=
  { lat := fun k => (k : ℝ), lon := fun k => (k : ℝ), nLat := 2, nLon := 2,
    timeHours := fun _ => 0, nTime := 0,
    vars := fun v => if v = ("lsm" : String) then some (fun _ => 1) else none }

/-- The default configuration with only the land mask loaded. -/
def cfgLM : Config := { cfg0 with landMask := some lmW }

/-- A particle sitting at the origin node of `lmW`. -/
def pW : Particle := OilParticle 0 0 500

lemma lmW_sample_origin : lmW.sample ("lsm") 0 0 0 = 1 := by
  have hvar : lmW.vars ("lsm") = some (fun _ => (1 : ℝ)) := rfl
  norm_num [FieldGrid.sample, hvar, FieldGrid.latMin, FieldGrid.lonMin, FieldGrid.dLat,
    FieldGrid.dLon, FieldGrid.latMax, FieldGrid.lonMax, FieldGrid.corners, lmW]

/-- C4 witness: the grounding-revert law at a concrete all-land mask, particle
and zero displacement. -/
theorem c4_grounding_witness :
    (particleUpd cfgLM false envZ 0 0 0 0 600 0 0 pW).1.lat = pW.lat ∧
    (particleUpd cfgLM false envZ 0 0 0 0 600 0 0 pW).1.lng = pW.lng ∧
    (particleUpd cfgLM false envZ 0 0 0 0 600 0 0 pW).1.active = false ∧
    (particleUpd cfgLM false envZ 0 0 0 0 600 0 0 pW).1.beached = true := by
  have hd : displacement cfgLM false envZ 0 600 0 0 pW = (0, 0) :=
    displacement_scalar_zero cfgLM envZ 0 600 pW rfl rfl
  refine c4_grounding_reverts cfgLM false envZ 0 0 0 0 600 0 0 pW lmW rfl
    (by norm_num [Config.oilProps, OIL_PROPERTIES, cfgLM, cfg0]) ?_ ?_
  · rw [hd]
    norm_num [FieldGrid.contains, FieldGrid.latMin, FieldGrid.latMax, FieldGrid.lonMin,
      FieldGrid.lonMax, lmW, pW, OilParticle]
  · rw [hd]
    have h0 : pW.lat + ((0 : ℝ), (0 : ℝ)).1 = 0 := by norm_num [pW, OilParticle]
    have h1 : pW.lng + ((0 : ℝ), (0 : ℝ)).2 = 0 := by norm_num [pW, OilParticle]
    rw [h0, h1, lmW_sample_origin]
    norm_num

/-- C1 witness: the amended thickness law applied at a concrete particle. -/
theorem c1_thickness_witness :
    (particleUpd cfg0 false envZ 0 0 0 0 3600 0 0 pC1).1.thickness
      = 0.01 * ((pC1.age + 3600) / 3600) ^ (-0.33 : ℝ) :=
  c1_thickness_amended cfg0 false envZ 0 0 0 0 3600 0 0 pC1
    (by norm_num [Config.oilProps, OIL_PROPERTIES, cfg0])
    (by norm_num [pC1, OilParticle])

/-! ## C5 and C10 -/

lemma releaseParticle_congr (c1 c2 : Config) (rng : Rng) (u : ℕ) (p : Particle)
    (hLat : c1.spillLat = c2.spillLat) (hLng : c1.spillLng = c2.spillLng) :
    releaseParticle c1 rng u p = releaseParticle c2 rng u p := by
  simp only [releaseParticle, hLat, hLng]

lemma releaseLoop_congr (c1 c2 : Config) (rng : Rng)
    (hN : c1.particleCount = c2.particleCount)
    (hLat : c1.spillLat = c2.spillLat) (hLng : c1.spillLng = c2.spillLng) :
    ∀ (n : ℕ) (ps : List Particle) (released u : ℕ),
      releaseLoop c1 rng n ps released u = releaseLoop c2 rng n ps released u := by
  intro n
  induction n with
  | zero => intro ps released u; rfl
  | succ k ih =>
    intro ps released u
    simp only [releaseLoop, hN]
    by_cases h : released < c2.particleCount
    · simp [h, releaseParticle_congr c1 c2 rng _ _ hLat hLng, ih]
    · simp [h]

lemma releasePhase_congr (c1 c2 : Config) (rng : Rng) (s : SimState)
    (hsm : c1.spillMode = c2.spillMode) (hN : c1.particleCount = c2.particleCount)
    (hsd : c1.spillDuration = c2.spillDuration) (hts : c1.timeStep = c2.timeStep)
    (hLat : c1.spillLat = c2.spillLat) (hLng : c1.spillLng = c2.spillLng) :
    releasePhase c1 rng s = releasePhase c2 rng s := by
  simp only [releasePhase, hsm, hN, hsd, hts,
    releaseLoop_congr c1 c2 rng hN hLat hLng]

lemma scalarEnv_congr (c1 c2 : Config)
    (hws : c1.windSpeed = c2.windSpeed) (hwd : c1.windDir = c2.windDir)
    (hcs : c1.currentSpeed = c2.currentSpeed) (hcd : c1.currentDir = c2.currentDir) :
    ∀ t : ℝ, scalarEnv c1 t = scalarEnv c2 t := by
  intro t
  simp only [scalarEnv, hws, hwd, hcs, hcd]

lemma displacement_congr (c1 c2 : Config)
    (hwg : c1.windGrid = c2.windGrid) (hcg : c1.currentGrid = c2.currentGrid) :
    ∀ (useGrid : Bool) (env : ScalarEnv) (gridT dt g1 g2 : ℝ) (p : Particle),
      displacement c1 useGrid env gridT dt g1 g2 p
        = displacement c2 useGrid env gridT dt g1 g2 p := by
  intro useGrid env gridT dt g1 g2 p
  simp only [displacement, hwg, hcg]

lemma particleUpd_congr (c1 c2 : Config)
    (hot : c1.oilType = c2.oilType) (hov : c1.oilVolume = c2.oilVolume)
    (hN : c1.particleCount = c2.particleCount)
    (hwg : c1.windGrid = c2.windGrid) (hcg : c1.currentGrid = c2.currentGrid)
    (hlm : c1.landMask = c2.landMask) :
    ∀ (useGrid : Bool) (env : ScalarEnv) (evapF dispF emulY gridT dt g1 g2 : ℝ) (p : Particle),
      particleUpd c1 useGrid env evapF dispF emulY gridT dt g1 g2 p
        = particleUpd c2 useGrid env evapF dispF emulY gridT dt g1 g2 p := by
  intro useGrid env evapF dispF emulY gridT dt g1 g2 p
  simp only [particleUpd, Config.oilProps, hot, hov, hN, hlm,
    displacement_congr c1 c2 hwg hcg]

lemma particlesLoop_congr (c1 c2 : Config) (rng : Rng)
    (hot : c1.oilType = c2.oilType) (hov : c1.oilVolume = c2.oilVolume)
    (hN : c1.particleCount = c2.particleCount)
    (hwg : c1.windGrid = c2.windGrid) (hcg : c1.currentGrid = c2.currentGrid)
    (hlm : c1.landMask = c2.landMask) :
    ∀ (useGrid : Bool) (env : ScalarEnv) (evapF dispF emulY gridT dt : ℝ)
      (ps : List Particle) (gi : ℕ),
      particlesLoop c1 rng useGrid env evapF dispF emulY gridT dt ps gi
        = particlesLoop c2 rng useGrid env evapF dispF emulY gridT dt ps gi := by
  intro useGrid env evapF dispF emulY gridT dt ps
  induction ps with
  | nil => intro gi; rfl
  | cons p rest ih =>
    intro gi
    simp only [particlesLoop]
    by_cases hp : p.active <;>
      simp [hp, ih, particleUpd_congr c1 c2 hot hov hN hwg hcg hlm]

lemma updateStats_congr (c1 c2 : Config) (ps : List Particle) (st : Stats)
    (hLat : c1.spillLat = c2.spillLat) (hLng : c1.spillLng = c2.spillLng) :
    updateStats c1 ps st = updateStats c2 ps st := by
  simp only [updateStats, hLat, hLng]

lemma stepEnv_congr (c1 c2 : Config) (hug : c1.useGrid = c2.useGrid)
    (hws : c1.windSpeed = c2.windSpeed) (hwd : c1.windDir = c2.windDir)
    (hcs : c1.currentSpeed = c2.currentSpeed) (hcd : c1.currentDir = c2.currentDir) :
    ∀ t : ℝ, stepEnv c1 t = stepEnv c2 t := by
  intro t
  simp only [stepEnv, hug, hws, scalarEnv_congr c1 c2 hws hwd hcs hcd t]

lemma stepRepWs_congr (c1 c2 : Config) (hug : c1.useGrid = c2.useGrid)
    (hws : c1.windSpeed = c2.windSpeed) (hwd : c1.windDir = c2.windDir)
    (hcs : c1.currentSpeed = c2.currentSpeed) (hcd : c1.currentDir = c2.currentDir) :
    ∀ t : ℝ, stepRepWs c1 t = stepRepWs c2 t := by
  intro t
  simp only [stepRepWs, hug, stepEnv_congr c1 c2 hug hws hwd hcs hcd t]

/-- `_step` depends on the configuration only through the fields it reads; in
particular two configurations that agree on everything except `useGridData`
but have the same computed `useGrid` value take identical steps. -/
lemma stepFull_congr (c1 c2 : Config) (rng : Rng) (s : SimState)
    (hug : c1.useGrid = c2.useGrid)
    (hts : c1.timeStep = c2.timeStep) (hgto : c1.gridTimeOffset = c2.gridTimeOffset)
    (hwt : c1.waterTemp = c2.waterTemp) (hws : c1.windSpeed = c2.windSpeed)
    (hwd : c1.windDir = c2.windDir) (hcs : c1.currentSpeed = c2.currentSpeed)
    (hcd : c1.currentDir = c2.currentDir) (hsm : c1.spillMode = c2.spillMode)
    (hN : c1.particleCount = c2.particleCount) (hsd : c1.spillDuration = c2.spillDuration)
    (hLat : c1.spillLat = c2.spillLat) (hLng : c1.spillLng = c2.spillLng)
    (hov : c1.oilVolume = c2.oilVolume) (hot : c1.oilType = c2.oilType)
    (hwg : c1.windGrid = c2.windGrid) (hcg : c1.currentGrid = c2.currentGrid)
    (hlm : c1.landMask = c2.landMask) :
    stepFull c1 rng s = stepFull c2 rng s := by
  simp only [stepFull, Config.oilProps, hug, hts, hgto, hwt, hws, hot,
    releasePhase_congr c1 c2 rng s hsm hN hsd hts hLat hLng,
    stepEnv_congr c1 c2 hug hws hwd hcs hcd,
    stepRepWs_congr c1 c2 hug hws hwd hcs hcd,
    particlesLoop_congr c1 c2 rng hot hov hN hwg hcg hlm]

/-- C5: with no grids loaded, a run with `use_grid_data = true` is step-for-step
and tick-for-tick identical (particles, trajectory, statistics, time) to the
run with `use_grid_data = false`, on identical random streams. -/
theorem c5_no_grids_equivalence (cfg : Config) (rng : Rng)
    (h1 : cfg.windGrid = none) (h2 : cfg.currentGrid = none)
    (h3 : cfg.tempGrid = none) (h4 : cfg.landMask = none) :
    (∀ s, stepFull { cfg with useGridData := true } rng s
        = stepFull { cfg with useGridData := false } rng s) ∧
    (∀ n s, runTicks { cfg with useGridData := true } rng n s
        = runTicks { cfg with useGridData := false } rng n s) := by
  have hug : Config.useGrid { cfg with useGridData := true }
      = Config.useGrid { cfg with useGridData := false } := by
    simp [Config.useGrid, Config.hasGridData, h1, h2, h3]
  have hstep : ∀ s, stepFull { cfg with useGridData := true } rng s
      = stepFull { cfg with useGridData := false } rng s := by
    intro s
    exact stepFull_congr _ _ rng s hug rfl rfl rfl rfl rfl rfl rfl rfl rfl rfl rfl
      rfl rfl rfl rfl rfl rfl
  refine ⟨hstep, ?_⟩
  have hmax : Config.maxTime { cfg with useGridData := true }
      = Config.maxTime { cfg with useGridData := false } := rfl
  have hstepN : ∀ n s, stepN { cfg with useGridData := true } rng n s
      = stepN { cfg with useGridData := false } rng n s := by
    intro n
    induction n with
    | zero => intro s; rfl
    | succ k ih =>
      intro s
      simp only [stepN, hmax]
      by_cases ht : s.time < Config.maxTime { cfg with useGridData := false }
      · rw [if_pos ht, if_pos ht, hstep s, ih]
      · rw [if_neg ht, if_neg ht]
  have htick : ∀ s, runTick { cfg with useGridData := true } rng s
      = runTick { cfg with useGridData := false } rng s := by
    intro s
    simp only [runTick]
    rw [show Config.playbackSpeed { cfg with useGridData := true }
      = Config.playbackSpeed { cfg with useGridData := false } from rfl]
    rw [hstepN _ s, updateStats_congr { cfg with useGridData := true }
      { cfg with useGridData := false } _ _ rfl rfl]
  intro n
  induction n with
  | zero => intro s; rfl
  | succ k ih =>
    intro s
    simp only [runTicks]
    rw [htick s, ih]

def rng0 : Rng := ⟨fun _ => 0, fun _ => 0⟩

/-- C5 witness: the equivalence applied to the concrete gridless default
configuration. -/
theorem c5_no_grids_equivalence_witness :
    (∀ s, stepFull { cfg0 with useGridData := true } rng0 s
        = stepFull { cfg0 with useGridData := false } rng0 s) ∧
    (∀ n s, runTicks { cfg0 with useGridData := true } rng0 n s
        = runTicks { cfg0 with useGridData := false } rng0 n s) :=
  c5_no_grids_equivalence cfg0 rng0 rfl rfl rfl rfl

/-- C10: with only the land mask loaded and `use_grid_data = true`,
`hasGridData` is false and the step coincides with the scalar-field fallback
(`useGridData := false`), so drift, diffusion and weathering use the
time-perturbed scalar wind; yet the grounding check against the land mask is
still applied to every advected particle: whenever the displaced position
falls on land (lsm above 0.5 inside the mask), the particle is beached. -/
theorem c10_landmask_only_scalar_fallback (cfg : Config) (rng : Rng) (lm : FieldGrid ℝ)
    (h1 : cfg.windGrid = none) (h2 : cfg.currentGrid = none) (h3 : cfg.tempGrid = none)
    (h4 : cfg.landMask = some lm) (h5 : cfg.useGridData = true) :
    cfg.hasGridData = false ∧
    cfg.useGrid = false ∧
    (∀ s, stepFull cfg rng s = stepFull { cfg with useGridData := false } rng s) ∧
    (∀ (env : ScalarEnv) (evapF dispF emulY gridT dt g1 g2 : ℝ) (p : Particle),
      ¬ (1 - min evapF cfg.oilProps.volatileFrac - min dispF 0.3 < 0.05) →
      lm.contains (p.lat + (displacement cfg false env gridT dt g1 g2 p).1)
        (p.lng + (displacement cfg false env gridT dt g1 g2 p).2) →
      0.5 < lm.sample ("lsm") (p.lat + (displacement cfg false env gridT dt g1 g2 p).1)
        (p.lng + (displacement cfg false env gridT dt g1 g2 p).2) 0 →
      (particleUpd cfg false env evapF dispF emulY gridT dt g1 g2 p).1.beached = true ∧
      (particleUpd cfg false env evapF dispF emulY gridT dt g1 g2 p).1.active = false) := by
  have hga : cfg.hasGridData = false := by simp [Config.hasGridData, h1, h2, h3]
  have hug : cfg.useGrid = Config.useGrid { cfg with useGridData := false } := by
    simp [Config.useGrid, Config.hasGridData, h1, h2, h3]
  refine ⟨hga, by simp [Config.useGrid, hga],
    fun s => stepFull_congr _ _ rng s hug rfl rfl rfl rfl rfl rfl rfl rfl rfl rfl rfl
      rfl rfl rfl rfl rfl rfl, ?_⟩
  intro env evapF dispF emulY gridT dt g1 g2 p hrem hc hs
  have h := particleUpd_grounded cfg false env evapF dispF emulY gridT dt g1 g2 p lm
    h4 hrem hc hs
  exact ⟨h.2.2.2, h.2.2.1⟩

/-- C10 witness: the theorem applied to the default configuration carrying
only the all-land mask. -/
theorem c10_landmask_only_witness :
    cfgLM.hasGridData = false ∧
    cfgLM.useGrid = false ∧
    (∀ s, stepFull cfgLM rng0 s = stepFull { cfgLM with useGridData := false } rng0 s) ∧
    (∀ (env : ScalarEnv) (evapF dispF emulY gridT dt g1 g2 : ℝ) (p : Particle),
      ¬ (1 - min evapF cfgLM.oilProps.volatileFrac - min dispF 0.3 < 0.05) →
      lmW.contains (p.lat + (displacement cfgLM false env gridT dt g1 g2 p).1)
        (p.lng + (displacement cfgLM false env gridT dt g1 g2 p).2) →
      0.5 < lmW.sample ("lsm") (p.lat + (displacement cfgLM false env gridT dt g1 g2 p).1)
        (p.lng + (displacement cfgLM false env gridT dt g1 g2 p).2) 0 →
      (particleUpd cfgLM false env evapF dispF emulY gridT dt g1 g2 p).1.beached = true ∧
      (particleUpd cfgLM false env evapF dispF emulY gridT dt g1 g2 p).1.active = false) :=
  c10_landmask_only_scalar_fallback cfgLM rng0 lmW rfl rfl rfl rfl rfl

/-! ## C3 -/

/-- When not every particle is yet released, the loop reaches exactly
`min (released + n) particleCount`. -/
lemma releaseLoop_released_lt (cfg : Config) (rng : Rng) :
    ∀ (n : ℕ) (ps : List Particle) (released u : ℕ), released ≤ cfg.particleCount →
      (releaseLoop cfg rng n ps released u).2.1 = min (released + n) cfg.particleCount := by
  intro n
  induction n with
  | zero =>
    intro ps released u h
    dsimp only [releaseLoop]
    omega
  | succ k ih =>
    intro ps released u h
    simp only [releaseLoop]
    by_cases hlt : released < cfg.particleCount
    · rw [if_pos hlt, ih _ _ _ (by omega)]
      omega
    · rw [if_neg hlt]
      dsimp only
      omega

lemma releasePhase_time (cfg : Config) (rng : Rng) (s : SimState) :
    (releasePhase cfg rng s).time = s.time := by
  cases hm : cfg.spillMode <;> simp only [releasePhase, hm] <;>
    first
      | rfl
      | (split_ifs <;> rfl)

lemma releasePhase_released_le (cfg : Config) (rng : Rng) (s : SimState)
    (h : s.particlesReleased ≤ cfg.particleCount) :
    (releasePhase cfg rng s).particlesReleased ≤ cfg.particleCount := by
  cases hm : cfg.spillMode
  case instant => simpa [releasePhase, hm] using h
  case continuous =>
    simp only [releasePhase, hm]
    split_ifs with h1 h2
    · dsimp only
      rw [releaseLoop_released_lt cfg rng _ _ _ _ h]
      omega
    · exact h
    · exact h

/-- The last step before the horizon releases every remaining particle: when
`spill_duration * 3600 = max_time` and `time < max_time ≤ time + dt`, the
release target is the full particle count. -/
lemma releasePhase_complete (cfg : Config) (rng : Rng) (s : SimState)
    (hcont : cfg.spillMode = SpillMode.continuous)
    (hrel : s.particlesReleased ≤ cfg.particleCount)
    (hdur : cfg.spillDuration * 3600 = cfg.maxTime)
    (hmax : 0 < cfg.maxTime)
    (ht1 : s.time < cfg.maxTime) (ht2 : cfg.maxTime ≤ s.time + cfg.timeStep) :
    (releasePhase cfg rng s).particlesReleased = cfg.particleCount := by
  simp only [releasePhase, hcont]
  by_cases h : s.particlesReleased < cfg.particleCount
  · rw [if_pos h, if_pos (by rw [hdur]; exact ht1)]
    have htarget : (cfg.particleCount : ℤ) ≤
        ⌊(s.time + cfg.timeStep) / (cfg.spillDuration * 3600) * (cfg.particleCount : ℝ)⌋ := by
      rw [Int.le_floor]
      have h1 : (1 : ℝ) ≤ (s.time + cfg.timeStep) / (cfg.spillDuration * 3600) := by
        rw [hdur]
        exact (one_le_div hmax).mpr ht2
      have h0 : (0 : ℝ) ≤ (cfg.particleCount : ℝ) := Nat.cast_nonneg _
      push_cast
      nlinarith
    dsimp only
    rw [releaseLoop_released_lt cfg rng _ _ _ _ hrel]
    omega
  · rw [if_neg h]
    omega

lemma stepFull_released (cfg : Config) (rng : Rng) (s : SimState) :
    (stepFull cfg rng s).particlesReleased = (releasePhase cfg rng s).particlesReleased := by
  simp only [stepFull]

lemma stepFull_time (cfg : Config) (rng : Rng) (s : SimState) :
    (stepFull cfg rng s).time = s.time + cfg.timeStep := by
  simp only [stepFull, releasePhase_time]

/-- C3 run induction: once enough steps fit before the horizon, the run ends
at or past `max_time` with every particle released. -/
lemma c3_run (cfg : Config) (rng : Rng)
    (hcont : cfg.spillMode = SpillMode.continuous)
    (hdur : cfg.spillDuration * 3600 = cfg.maxTime)
    (hmax : 0 < cfg.maxTime) :
    ∀ (fuel : ℕ) (s : SimState), s.particlesReleased ≤ cfg.particleCount →
      (cfg.maxTime ≤ s.time → s.particlesReleased = cfg.particleCount) →
      cfg.maxTime ≤ s.time + (fuel : ℝ) * cfg.timeStep →
      (stepN cfg rng fuel s).particlesReleased = cfg.particleCount ∧
        cfg.maxTime ≤ (stepN cfg rng fuel s).time := by
  intro fuel
  induction fuel with
  | zero =>
    intro s hle hN hfuel
    have ht : cfg.maxTime ≤ s.time := by
      simpa using hfuel
    exact ⟨hN ht, ht⟩
  | succ k ih =>
    intro s hle hN hfuel
    simp only [stepN]
    by_cases ht : s.time < cfg.maxTime
    · rw [if_pos ht]
      refine ih (stepFull cfg rng s) ?_ ?_ ?_
      · rw [stepFull_released]
        exact releasePhase_released_le cfg rng s hle
      · intro h2
        rw [stepFull_time] at h2
        rw [stepFull_released]
        exact releasePhase_complete cfg rng s hcont hle hdur hmax ht h2
      · rw [stepFull_time]
        push_cast at hfuel ⊢
        linarith
    · rw [if_neg ht]
      exact ⟨hN (le_of_not_lt ht), le_of_not_lt ht⟩

lemma initSim_continuous_released (cfg : Config) (rng : Rng)
    (hcont : cfg.spillMode = SpillMode.continuous) :
    (initSim cfg rng).particlesReleased = 0 ∧ (initSim cfg rng).time = 0 := by
  simp [initSim, hcont]

/-- C3: in continuous release mode with `spill_duration * 3600 = max_time`,
for every positive step size and particle count, once the run has stepped to
the horizon (steps execute while `time < max_time`), the released counter
equals the full particle count. -/
theorem c3_continuous_release_completes (cfg : Config) (rng : Rng) (fuel : ℕ)
    (hcont : cfg.spillMode = SpillMode.continuous)
    (hdur : cfg.spillDuration * 3600 = cfg.maxTime)
    (hdt : 0 < cfg.timeStep) (hmax : 0 < cfg.maxTime) (hN : 0 < cfg.particleCount)
    (hfuel : cfg.maxTime ≤ (fuel : ℝ) * cfg.timeStep) :
    (stepN cfg rng fuel (initSim cfg rng)).particlesReleased = cfg.particleCount ∧
      cfg.maxTime ≤ (stepN cfg rng fuel (initSim cfg rng)).time := by
  obtain ⟨hrel, htime⟩ := initSim_continuous_released cfg rng hcont
  refine c3_run cfg rng hcont hdur hmax fuel (initSim cfg rng) ?_ ?_ ?_
  · rw [hrel]; exact Nat.zero_le _
  · intro h
    rw [htime] at h
    exact absurd hmax (not_lt.mpr h)
  · rw [htime]
    simpa using hfuel

/-- A concrete continuous-release configuration: two particles, a one-hour
spill over a one-hour horizon, 1800 s steps. -/
def cfgC3 : Config :=
  { cfg0 with
    spillMode := SpillMode.continuous, spillDuration := 1,
    maxTime := 3600, timeStep := 1800, particleCount := 2 }

/-! ## C6 -/

lemma oilProps_nonneg (k : OilKind) :
    0 ≤ (OIL_PROPERTIES k).evapRate ∧ 0 ≤ (OIL_PROPERTIES k).volatileFrac ∧
      0 ≤ (OIL_PROPERTIES k).dispersibility := by
  cases k <;> norm_num [OIL_PROPERTIES]

lemma calcEvaporation_nonneg (P : OilProps) (h T W : ℝ)
    (hP : 0 ≤ P.evapRate) (hvol : 0 ≤ P.volatileFrac)
    (hT : -65 / 9 ≤ T) (hW : 0 ≤ W) :
    0 ≤ calcEvaporation P h T W := by
  simp only [calcEvaporation]
  split_ifs with hh
  · exact le_refl 0
  · refine le_min ?_ hvol
    have hK : 0 ≤ P.evapRate * (1 + 0.045 * (T - 15)) := by nlinarith
    have hs : 0 ≤ Real.sqrt h := Real.sqrt_nonneg h
    exact mul_nonneg (mul_nonneg hK hs) (by nlinarith)

lemma calcEvaporation_le (P : OilProps) (h T W : ℝ) (hvol : 0 ≤ P.volatileFrac) :
    calcEvaporation P h T W ≤ P.volatileFrac := by
  simp only [calcEvaporation]
  split_ifs with hh
  · exact hvol
  · exact min_le_right _ _

lemma calcDispersion_nonneg (P : OilProps) (W h : ℝ) (hd : 0 ≤ P.dispersibility) :
    0 ≤ calcDispersion P W h := by
  simp only [calcDispersion]
  split_ifs with hh
  · exact le_refl 0
  · push_neg at hh
    refine le_min ?_ (by norm_num)
    have h1 : 0 < h := hh.1
    exact mul_nonneg (mul_nonneg (mul_nonneg (by norm_num) hd) (by positivity))
      (le_of_lt h1)

lemma calcEmulsion_nonneg (h W : ℝ) : 0 ≤ calcEmulsion h W := by
  simp only [calcEmulsion]
  split_ifs with hh
  · exact le_refl 0
  · push_neg at hh
    refine le_min ?_ (by norm_num)
    have hKa : (0 : ℝ) ≤ 2e-6 * (W + 1) ^ (2 : ℕ) := by positivity
    have hexp : Real.exp (-(2e-6 * (W + 1) ^ (2 : ℕ) * h * 3600)) ≤ 1 := by
      rw [Real.exp_le_one_iff]
      nlinarith [hh.1]
    nlinarith

lemma calcEmulsion_le (h W : ℝ) : calcEmulsion h W ≤ 0.7 := by
  simp only [calcEmulsion]
  split_ifs with hh
  · norm_num
  · exact min_le_right _ _

lemma scalarEnv_ws_nonneg (cfg : Config) (t : ℝ) (hW : 0 ≤ cfg.windSpeed) :
    0 ≤ (scalarEnv cfg t).ws := by
  simp only [scalarEnv]
  have := Real.neg_one_le_sin (t * 0.0002)
  nlinarith

/-- The weathering-fraction bounds of claim C6 for one particle. -/
def weatherBounds (P : OilProps) (p : Particle) : Prop :=
  0 ≤ p.evaporated ∧ p.evaporated ≤ P.volatileFrac ∧ 0 ≤ p.dispersed ∧
    p.dispersed ≤ 0.3 ∧ 0 ≤ p.emulsionWater ∧ p.emulsionWater ≤ 0.7

/-- Both exits of the per-particle update write the same weathering values. -/
lemma particleUpd_weathering (cfg : Config) (useGrid : Bool) (env : ScalarEnv)
    (e d y gT dt g1 g2 : ℝ) (p : Particle) :
    (particleUpd cfg useGrid env e d y gT dt g1 g2 p).1.evaporated
        = min e cfg.oilProps.volatileFrac ∧
    (particleUpd cfg useGrid env e d y gT dt g1 g2 p).1.dispersed = min d 0.3 ∧
    (particleUpd cfg useGrid env e d y gT dt g1 g2 p).1.emulsionWater = y := by
  by_cases hrem : 1 - min e cfg.oilProps.volatileFrac - min d 0.3 < 0.05
  · simp [particleUpd, hrem]
  · simp only [particleUpd, if_neg hrem]
    cases hlm : cfg.landMask with
    | none => simp
    | some lm =>
      dsimp only
      split <;> simp

lemma particlesLoop_weatherBounds (cfg : Config) (rng : Rng) (useGrid : Bool)
    (env : ScalarEnv) (e d y gT dt : ℝ)
    (he : 0 ≤ e) (hd2 : 0 ≤ d) (hy : 0 ≤ y) (hy2 : y ≤ 0.7)
    (hvol : 0 ≤ cfg.oilProps.volatileFrac) :
    ∀ (ps : List Particle) (gi : ℕ),
      (∀ p ∈ ps, weatherBounds cfg.oilProps p) →
      ∀ q ∈ (particlesLoop cfg rng useGrid env e d y gT dt ps gi).1,
        weatherBounds cfg.oilProps q := by
  intro ps
  induction ps with
  | nil =>
    intro gi hinv q hq
    simp [particlesLoop] at hq
  | cons p rest ih =>
    intro gi hinv q hq
    simp only [particlesLoop] at hq
    by_cases hp : p.active = true
    · rw [if_pos hp] at hq
      dsimp only at hq
      rcases List.mem_cons.mp hq with hq1 | hq1
      · obtain ⟨h1, h2, h3⟩ := particleUpd_weathering cfg useGrid env e d y gT dt
          (rng.gauss gi) (rng.gauss (gi + 1)) p
        subst hq1
        refine ⟨?_, ?_, ?_, ?_, ?_, ?_⟩
        · rw [h1]; exact le_min he hvol
        · rw [h1]; exact min_le_right _ _
        · rw [h2]; exact le_min hd2 (by norm_num)
        · rw [h2]; exact min_le_right _ _
        · rw [h3]; exact hy
        · rw [h3]; exact hy2
      · exact ih _ (fun r hr => hinv r (List.mem_cons_of_mem p hr)) q hq1
    · rw [if_neg hp] at hq
      dsimp only at hq
      rcases List.mem_cons.mp hq with hq1 | hq1
      · subst hq1
        exact hinv q (List.mem_cons_self _ _)
      · exact ih _ (fun r hr => hinv r (List.mem_cons_of_mem p hr)) q hq1

lemma default_weatherBounds (P : OilProps) (hvol : 0 ≤ P.volatileFrac) :
    weatherBounds P default := by
  show weatherBounds P (⟨0, 0, 0, false, false, 0, 0.01, 0, 0, 0, 0⟩ : Particle)
  exact ⟨le_refl 0, hvol, le_refl 0, by norm_num, le_refl 0, by norm_num⟩

lemma releaseParticle_weatherBounds (cfg : Config) (rng : Rng) (u : ℕ) (p : Particle)
    (h : weatherBounds cfg.oilProps p) :
    weatherBounds cfg.oilProps (releaseParticle cfg rng u p) := by
  simpa [weatherBounds, releaseParticle] using h

lemma releaseLoop_weatherBounds (cfg : Config) (rng : Rng)
    (hvol : 0 ≤ cfg.oilProps.volatileFrac) :
    ∀ (n : ℕ) (ps : List Particle) (released u : ℕ),
      (∀ p ∈ ps, weatherBounds cfg.oilProps p) →
      ∀ q ∈ (releaseLoop cfg rng n ps released u).1, weatherBounds cfg.oilProps q := by
  intro n
  induction n with
  | zero => intro ps r u h q hq; exact h q hq
  | succ k ih =>
    intro ps r u h q hq
    simp only [releaseLoop] at hq
    by_cases hlt : r < cfg.particleCount
    · rw [if_pos hlt] at hq
      refine ih _ _ _ ?_ q hq
      intro x hx
      rcases List.mem_or_eq_of_mem_set hx with hx1 | hx1
      · exact h x hx1
      · subst hx1
        refine releaseParticle_weatherBounds cfg rng u _ ?_
        by_cases hr : r < ps.length
        · rw [List.getD_eq_getElem ps default hr]
          exact h _ (List.getElem_mem hr)
        · rw [List.getD_eq_default ps default (le_of_not_lt hr)]
          exact default_weatherBounds _ hvol
    · rw [if_neg hlt] at hq
      exact h q hq

lemma releasePhase_weatherBounds (cfg : Config) (rng : Rng) (s : SimState)
    (hvol : 0 ≤ cfg.oilProps.volatileFrac)
    (h : ∀ p ∈ s.particles, weatherBounds cfg.oilProps p) :
    ∀ q ∈ (releasePhase cfg rng s).particles, weatherBounds cfg.oilProps q := by
  cases hm : cfg.spillMode
  case instant => simpa [releasePhase, hm] using h
  case continuous =>
    simp only [releasePhase, hm]
    split_ifs with h1 h2
    · dsimp only
      exact releaseLoop_weatherBounds cfg rng hvol _ _ _ _ h
    · exact h
    · exact h

lemma stepFull_weatherBounds (cfg : Config) (rng : Rng) (s : SimState)
    (hT : -65 / 9 ≤ cfg.waterTemp) (hW : 0 ≤ cfg.windSpeed)
    (h : ∀ p ∈ s.particles, weatherBounds cfg.oilProps p) :
    ∀ q ∈ (stepFull cfg rng s).particles, weatherBounds cfg.oilProps q := by
  obtain ⟨hev0, hvol0, hdisp0⟩ := oilProps_nonneg cfg.oilType
  have hev : 0 ≤ cfg.oilProps.evapRate := hev0
  have hvol : 0 ≤ cfg.oilProps.volatileFrac := hvol0
  have hdisp : 0 ≤ cfg.oilProps.dispersibility := hdisp0
  intro q hq
  simp only [stepFull] at hq
  have hrep : (0 : ℝ) ≤ stepRepWs cfg (releasePhase cfg rng s).time := by
    simp only [stepRepWs, stepEnv]
    split_ifs
    · norm_num
    · exact scalarEnv_ws_nonneg cfg _ hW
  have hin := releasePhase_weatherBounds cfg rng s hvol h
  exact particlesLoop_weatherBounds cfg rng _ _ _ _ _ _ _
    (calcEvaporation_nonneg cfg.oilProps _ _ _ hev hvol hT hrep)
    (calcDispersion_nonneg cfg.oilProps _ _ hdisp)
    (calcEmulsion_nonneg _ _) (calcEmulsion_le _ _) hvol _ _ hin q hq

lemma initSim_weatherBounds (cfg : Config) (rng : Rng)
    (hvol : 0 ≤ cfg.oilProps.volatileFrac) :
    ∀ q ∈ (initSim cfg rng).particles, weatherBounds cfg.oilProps q := by
  intro q hq
  cases hm : cfg.spillMode
  case continuous =>
    simp only [initSim, hm] at hq
    obtain ⟨i, hi, rfl⟩ := List.mem_map.mp hq
    exact ⟨le_refl 0, hvol, le_refl 0, by norm_num [OilParticle], le_refl 0,
      by norm_num [OilParticle]⟩
  case instant =>
    simp only [initSim, hm] at hq
    obtain ⟨i, hi, rfl⟩ := List.mem_map.mp hq
    exact ⟨le_refl 0, hvol, le_refl 0, by norm_num [OilParticle], le_refl 0,
      by norm_num [OilParticle]⟩

/-- C6 (amended): along every run, each particle satisfies
`0 ≤ evaporated ≤ volatile_frac`, `0 ≤ dispersed ≤ 0.3` and
`0 ≤ emulsion_water ≤ 0.7`, provided the configured water temperature is at
least -65/9 C (else the evaporation coefficient K goes negative and the lower
bound fails, see the counterexample) and the scalar wind speed is nonnegative. -/
theorem c6_weathering_bounds_amended (cfg : Config) (rng : Rng)
    (hT : -65 / 9 ≤ cfg.waterTemp) (hW : 0 ≤ cfg.windSpeed) :
    ∀ n : ℕ, ((stepN cfg rng n (initSim cfg rng)).particles).Forall
      (fun p => 0 ≤ p.evaporated ∧ p.evaporated ≤ cfg.oilProps.volatileFrac ∧
        0 ≤ p.dispersed ∧ p.dispersed ≤ 0.3 ∧
        0 ≤ p.emulsionWater ∧ p.emulsionWater ≤ 0.7) := by
  have hvol := (oilProps_nonneg cfg.oilType).2.1
  have key : ∀ (n : ℕ) (s : SimState),
      (∀ p ∈ s.particles, weatherBounds cfg.oilProps p) →
      ∀ q ∈ (stepN cfg rng n s).particles, weatherBounds cfg.oilProps q := by
    intro n
    induction n with
    | zero => intro s h; exact h
    | succ k ih =>
      intro s h
      simp only [stepN]
      split_ifs with ht
      · exact ih _ (stepFull_weatherBounds cfg rng s hT hW h)
      · exact h
  intro n
  rw [List.forall_iff_forall_mem]
  exact key n _ (initSim_weatherBounds cfg rng hvol)

/-- C6 witness: the bounds along the default configuration. -/
theorem c6_weathering_bounds_witness :
    ((stepN cfg0 rng0 1 (initSim cfg0 rng0)).particles).Forall
      (fun p => 0 ≤ p.evaporated ∧ p.evaporated ≤ cfg0.oilProps.volatileFrac ∧
        0 ≤ p.dispersed ∧ p.dispersed ≤ 0.3 ∧
        0 ≤ p.emulsionWater ∧ p.emulsionWater ≤ 0.7) :=
  c6_weathering_bounds_amended cfg0 rng0 (by norm_num [cfg0]) (by norm_num [cfg0]) 1

/-! ## The concrete two-step run used by the C6 and C9 counterexamples -/

/-- One particle, cold water (-10 C), zero scalar wind and current, 7200 s
steps, instant mode, no grids. -/
def cfgC6 : Config :=
  { cfg0 with
    timeStep := 7200, particleCount := 1, windSpeed := 0, currentSpeed := 0,
    waterTemp := -10, useGridData := false }

/-- The single particle of the run at the spill origin. -/
def pA : Particle := ⟨38.5, 119.0, 500000, true, false, 0, 0.01, 0, 0, 0, 12⟩

/-- The particle after the first step (thickness follows the -0.33 power). -/
noncomputable def pB : Particle :=
  ⟨38.5, 119.0, 500000, true, false, 7200, 0.01 * (2 : ℝ) ^ (-0.33 : ℝ), 0, 0, 0, 12⟩

/-- The run state after the first step. -/
noncomputable def sC1 : SimState :=
  ⟨[pB], 7200, 1, [⟨7200, 38.5, 119.0⟩], initStats cfgC6, 2, 2⟩

lemma scalarEnv_zero_wind (cfg : Config) (t : ℝ)
    (hw : cfg.windSpeed = 0) (hc : cfg.currentSpeed = 0) :
    scalarEnv cfg t = ⟨0, 0, 1, 0⟩ := by
  norm_num [scalarEnv, hw, hc]

lemma initSim_cfgC6 :
    initSim cfgC6 rng0 = ⟨[pA], 0, 1, [], initStats cfgC6, 2, 0⟩ := by
  norm_num [initSim, cfgC6, cfg0, rng0, OilParticle, Config.oilProps, OIL_PROPERTIES, pA,
    List.range_succ]

lemma step1_eval :
    stepFull cfgC6 rng0 ⟨[pA], 0, 1, [], initStats cfgC6, 2, 0⟩ = sC1 := by
  have hug : cfgC6.useGrid = false := rfl
  have hrp : releasePhase cfgC6 rng0 ⟨[pA], 0, 1, [], initStats cfgC6, 2, 0⟩
      = ⟨[pA], 0, 1, [], initStats cfgC6, 2, 0⟩ := rfl
  have henv : stepEnv cfgC6 0 = ⟨0, 0, 1, 0⟩ := by
    simp only [stepEnv, hug, Bool.false_eq_true, if_false]
    exact scalarEnv_zero_wind cfgC6 0 rfl rfl
  have hrw : stepRepWs cfgC6 0 = 0 := by
    simp [stepRepWs, hug, henv]
  have hwt : cfgC6.waterTemp = -10 := rfl
  have hts : cfgC6.timeStep = 7200 := rfl
  have hov : cfgC6.oilVolume = 500 := rfl
  have hpc : cfgC6.particleCount = 1 := rfl
  have hgto : cfgC6.gridTimeOffset = 0 := rfl
  have hlmn : cfgC6.landMask = none := rfl
  have hprops : cfgC6.oilProps = OIL_PROPERTIES OilKind.crude := rfl
  simp only [stepFull, hug, hrp, Bool.false_eq_true, if_false]
  norm_num [henv, hrw, hwt, hts, hov, hpc, hgto, hlmn, hprops, calcEvaporation,
    calcDispersion, calcEmulsion, particlesLoop, particleUpd, displacement, jsMod,
    rtrunc, rng0, pA, pB, sC1, OIL_PROPERTIES, min_def, Real.exp_zero, Real.one_rpow,
    Real.sqrt_zero]

lemma releasePhase_instant (cfg : Config) (rng : Rng) (s : SimState)
    (hm : cfg.spillMode = SpillMode.instant) :
    releasePhase cfg rng s = s := by
  simp only [releasePhase, hm]

/-- The per-particle update exactly as `_step` invokes it, with the step
environment arguments spelled out from the state. -/
noncomputable def singleUpd (cfg : Config) (rng : Rng) (s : SimState) (p : Particle) :
    Particle × ℕ :=
  particleUpd cfg cfg.useGrid (stepEnv cfg s.time)
    (calcEvaporation cfg.oilProps (s.time / 3600) cfg.waterTemp (stepRepWs cfg s.time))
    (calcDispersion cfg.oilProps (stepRepWs cfg s.time) (s.time / 3600))
    (calcEmulsion (s.time / 3600) (stepRepWs cfg s.time))
    (s.time / 3600 + cfg.gridTimeOffset) cfg.timeStep (rng.gauss s.gIdx)
    (rng.gauss (s.gIdx + 1)) p

lemma particleUpd_consumed (cfg : Config) (useGrid : Bool) (env : ScalarEnv)
    (e d y gT dt g1 g2 : ℝ) (p : Particle)
    (hrem : ¬ (1 - min e cfg.oilProps.volatileFrac - min d 0.3 < 0.05)) :
    (particleUpd cfg useGrid env e d y gT dt g1 g2 p).2 = 2 := by
  simp only [particleUpd, if_neg hrem]
  cases hlm : cfg.landMask with
  | none => rfl
  | some lm =>
    dsimp only
    split <;> rfl

lemma particleUpd_active_none (cfg : Config) (useGrid : Bool) (env : ScalarEnv)
    (e d y gT dt g1 g2 : ℝ) (p : Particle)
    (hrem : ¬ (1 - min e cfg.oilProps.volatileFrac - min d 0.3 < 0.05))
    (hlm : cfg.landMask = none) :
    (particleUpd cfg useGrid env e d y gT dt g1 g2 p).1.active = p.active := by
  rw [particleUpd_eval cfg useGrid env e d y gT dt g1 g2 p hrem hlm]

/-- `_step` on a one-particle state whose particle is active and survives the
low-mass check, in instant mode. -/
lemma stepFull_single (cfg : Config) (rng : Rng) (s : SimState) (p : Particle)
    (hps : s.particles = [p]) (hp : p.active = true)
    (hinstant : cfg.spillMode = SpillMode.instant)
    (hrem : ¬ (1 - min (calcEvaporation cfg.oilProps (s.time / 3600) cfg.waterTemp
        (stepRepWs cfg s.time)) cfg.oilProps.volatileFrac -
      min (calcDispersion cfg.oilProps (stepRepWs cfg s.time) (s.time / 3600)) 0.3 < 0.05)) :
    stepFull cfg rng s = { s with
      particles := [(singleUpd cfg rng s p).1],
      gIdx := s.gIdx + 2,
      time := s.time + cfg.timeStep,
      trajectory := if jsMod (s.time + cfg.timeStep) 3600 < cfg.timeStep then
          (if (singleUpd cfg rng s p).1.active = true then
            s.trajectory ++ [⟨s.time + cfg.timeStep, (singleUpd cfg rng s p).1.lat,
              (singleUpd cfg rng s p).1.lng⟩]
          else s.trajectory)
        else s.trajectory } := by
  have hcons := particleUpd_consumed cfg cfg.useGrid (stepEnv cfg s.time)
    (calcEvaporation cfg.oilProps (s.time / 3600) cfg.waterTemp (stepRepWs cfg s.time))
    (calcDispersion cfg.oilProps (stepRepWs cfg s.time) (s.time / 3600))
    (calcEmulsion (s.time / 3600) (stepRepWs cfg s.time))
    (s.time / 3600 + cfg.gridTimeOffset) cfg.timeStep (rng.gauss s.gIdx)
    (rng.gauss (s.gIdx + 1)) p hrem
  simp only [stepFull, releasePhase_instant cfg rng s hinstant, hps, particlesLoop, hp,
    if_true, hcons, singleUpd, List.filter_cons, List.filter_nil]
  by_cases hact : (particleUpd cfg cfg.useGrid (stepEnv cfg s.time)
      (calcEvaporation cfg.oilProps (s.time / 3600) cfg.waterTemp (stepRepWs cfg s.time))
      (calcDispersion cfg.oilProps (stepRepWs cfg s.time) (s.time / 3600))
      (calcEmulsion (s.time / 3600) (stepRepWs cfg s.time))
      (s.time / 3600 + cfg.gridTimeOffset) cfg.timeStep (rng.gauss s.gIdx)
      (rng.gauss (s.gIdx + 1)) p).1.active = true
  · simp [hact]
  · simp [hact]

/-- The low-mass check can never fire for crude oil: the capped losses leave
at least 45 percent of the mass. -/
lemma remain_ok_crude (e d : ℝ) :
    ¬ (1 - min e (OIL_PROPERTIES OilKind.crude).volatileFrac - min d 0.3 < 0.05) := by
  have h1 := min_le_right e (OIL_PROPERTIES OilKind.crude).volatileFrac
  have h2 := min_le_right d (0.3 : ℝ)
  simp only [OIL_PROPERTIES] at h1 ⊢
  intro h
  nlinarith

lemma stepRepWs_cfgC6 (t : ℝ) : stepRepWs cfgC6 t = 0 := by
  have hug : cfgC6.useGrid = false := rfl
  simp [stepRepWs, stepEnv, hug, scalarEnv_zero_wind cfgC6 t rfl rfl]

lemma stepN_zero (cfg : Config) (rng : Rng) (s : SimState) : stepN cfg rng 0 s = s := by
  rw [stepN]

lemma stepN_succ (cfg : Config) (rng : Rng) (n : ℕ) (s : SimState) :
    stepN cfg rng (n + 1) s
      = if s.time < cfg.maxTime then stepN cfg rng n (stepFull cfg rng s) else s := by
  rw [stepN]

lemma run2_eval : stepN cfgC6 rng0 2 (initSim cfgC6 rng0) = stepFull cfgC6 rng0 sC1 := by
  have hmax : cfgC6.maxTime = 172800 := rfl
  have g1 : (initSim cfgC6 rng0).time < cfgC6.maxTime := by
    rw [initSim_cfgC6, hmax]
    norm_num
  have g2 : (stepFull cfgC6 rng0 (initSim cfgC6 rng0)).time < cfgC6.maxTime := by
    rw [initSim_cfgC6, step1_eval, hmax]
    norm_num [sC1]
  rw [show (2 : ℕ) = 1 + 1 from rfl, stepN_succ, if_pos g1, show (1 : ℕ) = 0 + 1 from rfl,
    stepN_succ, if_pos g2, stepN_zero, initSim_cfgC6, step1_eval]

/-! ## C9 -/

/-- C9 counterexample: with step size 7200 s the trajectory gains one sample
per step — the run records samples at 7200 s and 14400 s, spaced 7200 s, not
approximately 3600 s. -/
theorem c9_spacing_counterexample :
    List.map TrajPoint.time (stepN cfgC6 rng0 2 (initSim cfgC6 rng0)).trajectory
      = [7200, 14400] := by
  have hrem2 : ¬ (1 - min (calcEvaporation cfgC6.oilProps (sC1.time / 3600) cfgC6.waterTemp
      (stepRepWs cfgC6 sC1.time)) cfgC6.oilProps.volatileFrac -
    min (calcDispersion cfgC6.oilProps (stepRepWs cfgC6 sC1.time) (sC1.time / 3600)) 0.3
      < 0.05) := remain_ok_crude _ _
  have hact2 : (singleUpd cfgC6 rng0 sC1 pB).1.active = true := by
    simp only [singleUpd]
    rw [particleUpd_active_none cfgC6 cfgC6.useGrid (stepEnv cfgC6 sC1.time)
      (calcEvaporation cfgC6.oilProps (sC1.time / 3600) cfgC6.waterTemp
        (stepRepWs cfgC6 sC1.time))
      (calcDispersion cfgC6.oilProps (stepRepWs cfgC6 sC1.time) (sC1.time / 3600))
      (calcEmulsion (sC1.time / 3600) (stepRepWs cfgC6 sC1.time))
      (sC1.time / 3600 + cfgC6.gridTimeOffset) cfgC6.timeStep (rng0.gauss sC1.gIdx)
      (rng0.gauss (sC1.gIdx + 1)) pB hrem2 rfl]
    rfl
  rw [run2_eval, stepFull_single cfgC6 rng0 sC1 pB rfl rfl rfl hrem2]
  have hts : cfgC6.timeStep = (7200 : ℝ) := rfl
  have hmod : jsMod (sC1.time + cfgC6.timeStep) 3600 < cfgC6.timeStep := by
    norm_num [sC1, jsMod, rtrunc, hts]
  rw [if_pos hmod, if_pos hact2]
  norm_num [sC1, hts]

/-! ## C6 counterexample -/

/-- C6 counterexample: with water at -10 C the evaporation coefficient K is
negative (0.042 * (1 + 0.045 * (-25)) = -0.00525), so after the second step
(one elapsed hour times two with dt = 7200 s) the particle carries a negative
evaporated fraction, violating 0 ≤ evaporated in a reachable state. -/
theorem c6_bounds_counterexample :
    ((stepN cfgC6 rng0 2 (initSim cfgC6 rng0)).particles.headI).evaporated < 0 := by
  have hrem2 : ¬ (1 - min (calcEvaporation cfgC6.oilProps (sC1.time / 3600) cfgC6.waterTemp
      (stepRepWs cfgC6 sC1.time)) cfgC6.oilProps.volatileFrac -
    min (calcDispersion cfgC6.oilProps (stepRepWs cfgC6 sC1.time) (sC1.time / 3600)) 0.3
      < 0.05) := remain_ok_crude _ _
  rw [run2_eval, stepFull_single cfgC6 rng0 sC1 pB rfl rfl rfl hrem2]
  simp only [List.headI, singleUpd]
  rw [(particleUpd_weathering cfgC6 cfgC6.useGrid (stepEnv cfgC6 sC1.time)
    (calcEvaporation cfgC6.oilProps (sC1.time / 3600) cfgC6.waterTemp
      (stepRepWs cfgC6 sC1.time))
    (calcDispersion cfgC6.oilProps (stepRepWs cfgC6 sC1.time) (sC1.time / 3600))
    (calcEmulsion (sC1.time / 3600) (stepRepWs cfgC6 sC1.time))
    (sC1.time / 3600 + cfgC6.gridTimeOffset) cfgC6.timeStep (rng0.gauss sC1.gIdx)
    (rng0.gauss (sC1.gIdx + 1)) pB).1]
  have hval : calcEvaporation cfgC6.oilProps (sC1.time / 3600) cfgC6.waterTemp
      (stepRepWs cfgC6 sC1.time) < 0 := by
    have h1 : sC1.time / 3600 = (2 : ℝ) := by norm_num [sC1]
    have hwt : cfgC6.waterTemp = -10 := rfl
    rw [h1, hwt, stepRepWs_cfgC6]
    have hs : 0 < Real.sqrt 2 := Real.sqrt_pos.mpr (by norm_num)
    simp only [calcEvaporation]
    rw [if_neg (by norm_num)]
    refine lt_of_le_of_lt (min_le_left _ _) ?_
    have hK : cfgC6.oilProps.evapRate * (1 + 0.045 * ((-10 : ℝ) - 15)) = -(21 / 4000) := by
      norm_num [Config.oilProps, cfgC6, cfg0, OIL_PROPERTIES]
    rw [hK]
    nlinarith
  exact lt_of_le_of_lt (min_le_left _ _) hval

/-- The trajectory list never changes, or gains exactly one point stamped with
the post-step clock, appended when the step crosses the hour test. -/
lemma stepFull_trajectory (cfg : Config) (rng : Rng) (s : SimState) :
    (stepFull cfg rng s).trajectory = s.trajectory ∨
    (jsMod (s.time + cfg.timeStep) 3600 < cfg.timeStep ∧
      ∃ c1 c2, (stepFull cfg rng s).trajectory
        = s.trajectory ++ [⟨s.time + cfg.timeStep, c1, c2⟩]) := by
  have hrt := releasePhase_time cfg rng s
  have hrtraj : (releasePhase cfg rng s).trajectory = s.trajectory := by
    cases hm : cfg.spillMode <;> simp only [releasePhase, hm] <;>
      first
        | rfl
        | (split_ifs <;> rfl)
  simp only [stepFull, hrt, hrtraj]
  split_ifs with h1 h2
  · exact Or.inr ⟨h1, _, _, rfl⟩
  · exact Or.inl rfl
  · exact Or.inl rfl

/-- The invariant behind the amended C9: trajectory times are strictly
increasing, bounded by the clock, the clock is a step multiple, and when the
step divides 3600 every sample time is a positive hour multiple. -/
def trajInv (cfg : Config) (s : SimState) : Prop :=
  List.Chain' (fun a b => a < b) (s.trajectory.map TrajPoint.time) ∧
  (∀ t ∈ s.trajectory.map TrajPoint.time, t ≤ s.time) ∧
  (∃ j : ℕ, s.time = (j : ℝ) * cfg.timeStep) ∧
  (∀ q : ℕ, (q : ℝ) * cfg.timeStep = 3600 →
    ∀ t ∈ s.trajectory.map TrajPoint.time, ∃ m : ℕ, 0 < m ∧ t = 3600 * (m : ℝ))

/-- When the step size divides 3600, a step that passes the hour test lands
exactly on a positive multiple of 3600. -/
lemma hour_multiple (dt T : ℝ) (q j : ℕ) (hdt : 0 < dt) (hq : (q : ℝ) * dt = 3600)
    (hT : T = ((j : ℝ) + 1) * dt) (hmod : jsMod T 3600 < dt) :
    ∃ m : ℕ, 0 < m ∧ T = 3600 * (m : ℝ) := by
  have hTpos : 0 < T := by
    rw [hT]
    have : (0 : ℝ) ≤ (j : ℝ) := Nat.cast_nonneg j
    nlinarith
  have hdiv : (0 : ℝ) ≤ T / 3600 := div_nonneg hTpos.le (by norm_num)
  have hfl : rtrunc (T / 3600) = ⌊T / 3600⌋ := by rw [rtrunc, if_pos hdiv]
  set f : ℤ := ⌊T / 3600⌋ with hf
  have hfle : (f : ℝ) ≤ T / 3600 := by rw [hf]; exact Int.floor_le _
  have hflt : T / 3600 < (f : ℝ) + 1 := by rw [hf]; exact Int.lt_floor_add_one _
  have hr0 : 0 ≤ T - 3600 * (f : ℝ) := by nlinarith
  have hmod2 : T - 3600 * (f : ℝ) < dt := by
    rw [jsMod, hfl] at hmod
    exact hmod
  set z : ℤ := ((j : ℤ) + 1) - (q : ℤ) * f with hz
  have hrz : T - 3600 * (f : ℝ) = dt * (z : ℝ) := by
    rw [hT, ← hq]
    push_cast [hz]
    ring
  have hz0 : (0 : ℤ) ≤ z := by
    by_contra hzc
    push_neg at hzc
    have hzr : (z : ℝ) ≤ -1 := by exact_mod_cast Int.le_sub_one_of_lt hzc
    nlinarith
  have hz1 : z < 1 := by
    by_contra hzc
    push_neg at hzc
    have hzr : (1 : ℝ) ≤ (z : ℝ) := by exact_mod_cast hzc
    nlinarith
  have hzz : z = 0 := by omega
  have hT36 : T = 3600 * (f : ℝ) := by
    have := hrz
    rw [hzz] at this
    push_cast at this
    linarith
  have hf1 : 1 ≤ f := by
    by_contra hfc
    push_neg at hfc
    have : (f : ℝ) ≤ 0 := by exact_mod_cast (by omega : f ≤ 0)
    nlinarith
  refine ⟨f.toNat, by omega, ?_⟩
  rw [hT36]
  congr 1
  exact_mod_cast (Int.toNat_of_nonneg (by omega)).symm

lemma stepFull_trajInv (cfg : Config) (rng : Rng) (s : SimState)
    (hdt : 0 < cfg.timeStep) (h : trajInv cfg s) : trajInv cfg (stepFull cfg rng s) := by
  obtain ⟨hch, hle, ⟨j, hj⟩, hmul⟩ := h
  have htime := stepFull_time cfg rng s
  rcases stepFull_trajectory cfg rng s with heq | ⟨hmod, c1, c2, heq⟩
  · refine ⟨by rw [heq]; exact hch, ?_, ⟨j + 1, by rw [htime, hj]; push_cast; ring⟩, ?_⟩
    · intro t ht
      rw [heq] at ht
      have := hle t ht
      rw [htime]
      linarith
    · intro q hq t ht
      rw [heq] at ht
      exact hmul q hq t ht
  · have hmap : (stepFull cfg rng s).trajectory.map TrajPoint.time
        = s.trajectory.map TrajPoint.time ++ [s.time + cfg.timeStep] := by
      rw [heq]
      simp
    refine ⟨?_, ?_, ⟨j + 1, by rw [htime, hj]; push_cast; ring⟩, ?_⟩
    · rw [hmap, List.chain'_append]
      refine ⟨hch, List.chain'_singleton _, ?_⟩
      intro x hx y hy
      simp only [List.head?_cons, Option.mem_def, Option.some.injEq] at hy
      subst hy
      have hxmem : x ∈ s.trajectory.map TrajPoint.time := List.mem_of_mem_getLast? hx
      have := hle x hxmem
      linarith
    · intro t ht
      rw [hmap] at ht
      rcases List.mem_append.mp ht with ht1 | ht1
      · have := hle t ht1
        rw [htime]
        linarith
      · simp only [List.mem_singleton] at ht1
        subst ht1
        rw [htime]
    · intro q hq t ht
      rw [hmap] at ht
      rcases List.mem_append.mp ht with ht1 | ht1
      · exact hmul q hq t ht1
      · simp only [List.mem_singleton] at ht1
        subst ht1
        exact hour_multiple cfg.timeStep _ q j hdt hq (by rw [hj]; ring) hmod

lemma initSim_trajInv (cfg : Config) (rng : Rng) : trajInv cfg (initSim cfg rng) := by
  have htraj : (initSim cfg rng).trajectory = [] := by
    cases hm : cfg.spillMode <;> simp [initSim, hm]
  have htime : (initSim cfg rng).time = 0 := by
    cases hm : cfg.spillMode <;> simp [initSim, hm]
  refine ⟨?_, ?_, ⟨0, by rw [htime]; norm_num⟩, ?_⟩
  · rw [htraj]
    simp
  · intro t ht
    rw [htraj] at ht
    simp at ht
  · intro q hq t ht
    rw [htraj] at ht
    simp at ht

lemma stepN_trajInv (cfg : Config) (rng : Rng) (hdt : 0 < cfg.timeStep) :
    ∀ (n : ℕ) (s : SimState), trajInv cfg s → trajInv cfg (stepN cfg rng n s)
  | 0, s, h => by rw [stepN_zero]; exact h
  | n + 1, s, h => by
    rw [stepN_succ]
    split_ifs with hc
    · exact stepN_trajInv cfg rng hdt n _ (stepFull_trajInv cfg rng s hdt h)
    · exact h

/-- C9 (amended): for every positive step size the trajectory of a run is
strictly increasing in its time field, but the spacing is hourly only when the
step size divides 3600 s: in that case every sample time is a positive
multiple of 3600 s, while for larger steps (e.g. 7200 s) consecutive samples
are spaced by the step size instead of approximately 3600 s. -/
theorem c9_trajectory_amended (cfg : Config) (rng : Rng) (n : ℕ)
    (hdt : 0 < cfg.timeStep) :
    List.Chain' (fun a b => a < b)
      ((stepN cfg rng n (initSim cfg rng)).trajectory.map TrajPoint.time) ∧
    ∀ q : ℕ, (q : ℝ) * cfg.timeStep = 3600 →
      ∀ t ∈ (stepN cfg rng n (initSim cfg rng)).trajectory.map TrajPoint.time,
        ∃ m : ℕ, 0 < m ∧ t = 3600 * (m : ℝ) := by
  obtain ⟨h1, h2, h3, h4⟩ :=
    stepN_trajInv cfg rng hdt n (initSim cfg rng) (initSim_trajInv cfg rng)
  exact ⟨h1, h4⟩

theorem c9_trajectory_amended_witness :
    (0 : ℝ) < cfgC6.timeStep ∧
    (List.Chain' (fun a b => a < b)
      ((stepN cfgC6 rng0 2 (initSim cfgC6 rng0)).trajectory.map TrajPoint.time) ∧
    ∀ q : ℕ, (q : ℝ) * cfgC6.timeStep = 3600 →
      ∀ t ∈ (stepN cfgC6 rng0 2 (initSim cfgC6 rng0)).trajectory.map TrajPoint.time,
        ∃ m : ℕ, 0 < m ∧ t = 3600 * (m : ℝ)) :=
  ⟨by norm_num [show cfgC6.timeStep = (7200 : ℝ) from rfl],
   c9_trajectory_amended cfgC6 rng0 2
     (by norm_num [show cfgC6.timeStep = (7200 : ℝ) from rfl])⟩

/-! ## C8 -/

/-- C8 counterexample: with zero active and zero beached particles,
`_updateStats` returns before touching the stats object (line 636), so a stale
stored beached count (here 5) is not brought up to date with the current count
(here 0). -/
theorem c8_stats_counterexample :
    (updateStats cfg0 [] { initStats cfg0 with beached := 5 }).beached = 5 ∧
    (([] : List Particle).filter fun p => p.beached).length = 0 := by
  constructor
  · simp [updateStats]
  · rfl

/-- C8 (amended): whenever the statistics update runs with zero active
particles, every field other than `beached` retains its previous value;
`beached` is set to the current count of beached particles when that count is
nonzero, and also retains its previous value when the current count is zero
(the update returns without writing; in reachable states the stored value is
then already 0, so the two behaviors coincide there). -/
theorem c8_stats_frame_no_active (cfg : Config) (ps : List Particle) (st : Stats)
    (hact : (ps.filter fun p => p.active).length = 0) :
    (updateStats cfg ps st).area = st.area ∧
    (updateStats cfg ps st).remaining = st.remaining ∧
    (updateStats cfg ps st).evaporated = st.evaporated ∧
    (updateStats cfg ps st).dispersed = st.dispersed ∧
    (updateStats cfg ps st).centerLat = st.centerLat ∧
    (updateStats cfg ps st).centerLng = st.centerLng ∧
    (updateStats cfg ps st).maxDrift = st.maxDrift ∧
    (updateStats cfg ps st).emulsionWater = st.emulsionWater ∧
    (updateStats cfg ps st).viscosity = st.viscosity ∧
    (updateStats cfg ps st).beached =
      (if (ps.filter fun p => p.beached).length = 0 then st.beached
       else (ps.filter fun p => p.beached).length) := by
  by_cases hb : (ps.filter fun p => p.beached).length = 0
  · simp only [updateStats]
    rw [if_pos (And.intro hact hb)]
    refine ⟨rfl, rfl, rfl, rfl, rfl, rfl, rfl, rfl, rfl, ?_⟩
    rw [if_pos hb]
  · simp only [updateStats]
    rw [if_neg (by rintro ⟨hx1, hx2⟩; exact hb hx2), if_pos hact]
    refine ⟨rfl, rfl, rfl, rfl, rfl, rfl, rfl, rfl, rfl, ?_⟩
    rw [if_neg hb]

/-- A beached, inactive particle (C8 witness input). -/
def pBeached : Particle := ⟨0, 0, 0, false, true, 0, 0.01, 0, 0, 0, 0⟩

/-- C8 witness: the frame law at one beached particle and the initial stats. -/
theorem c8_stats_frame_witness :
    (updateStats cfg0 [pBeached] (initStats cfg0)).area = (initStats cfg0).area ∧
    (updateStats cfg0 [pBeached] (initStats cfg0)).remaining = (initStats cfg0).remaining ∧
    (updateStats cfg0 [pBeached] (initStats cfg0)).evaporated = (initStats cfg0).evaporated ∧
    (updateStats cfg0 [pBeached] (initStats cfg0)).dispersed = (initStats cfg0).dispersed ∧
    (updateStats cfg0 [pBeached] (initStats cfg0)).centerLat = (initStats cfg0).centerLat ∧
    (updateStats cfg0 [pBeached] (initStats cfg0)).centerLng = (initStats cfg0).centerLng ∧
    (updateStats cfg0 [pBeached] (initStats cfg0)).maxDrift = (initStats cfg0).maxDrift ∧
    (updateStats cfg0 [pBeached] (initStats cfg0)).emulsionWater
      = (initStats cfg0).emulsionWater ∧
    (updateStats cfg0 [pBeached] (initStats cfg0)).viscosity = (initStats cfg0).viscosity ∧
    (updateStats cfg0 [pBeached] (initStats cfg0)).beached =
      (if ([pBeached].filter fun p => p.beached).length = 0 then (initStats cfg0).beached
       else ([pBeached].filter fun p => p.beached).length) :=
  c8_stats_frame_no_active cfg0 [pBeached] (initStats cfg0) (by simp [pBeached])

/-- C3 witness: two 1800 s steps reach the 3600 s horizon with both particles
released. -/
theorem c3_continuous_release_witness :
    (stepN cfgC3 rng0 2 (initSim cfgC3 rng0)).particlesReleased = cfgC3.particleCount ∧
      cfgC3.maxTime ≤ (stepN cfgC3 rng0 2 (initSim cfgC3 rng0)).time :=
  c3_continuous_release_completes cfgC3 rng0 2 rfl (by norm_num [cfgC3])
    (by norm_num [cfgC3]) (by norm_num [cfgC3]) (by norm_num [cfgC3])
    (by norm_num [cfgC3])

end OilSpill
